import Mathlib

/-!
# kuma-net: the NAT ruleset compiler

A shallow embedding of `iptables/builder/builder_nat.go` and
`transparent-proxy/config/config.go`, followed by theorems about the chains the
builder emits.

Go pointers to chains that are mutated in place (`chain.Append(...)`) become
explicit state passing: every `Append` returns the extended chain.  `for ... range`
loops over a slice become `List.foldl` over the list, in slice order.  Ports are
`uint16` in the source; the builder only copies and compares them, so they are
natural numbers here.
-/

namespace KumaNet

/-! ## Package `consts` -/

namespace consts

/-- Modelled from the spec: the `consts` package is not among the sources; the spec
fixes the DNS port as 53. -/
def DNSPort : Nat := 53

/-- Modelled from the spec: the `consts` package is not among the sources; the spec
fixes `LocalhostCIDRIPv4` as `127.0.0.1/32`. -/
def LocalhostCIDRIPv4 : String := "127.0.0.1/32"

/-- Modelled from the spec: the `consts` package is not among the sources; the spec
fixes `LocalhostCIDRIPv6` as `::1/128`. -/
def LocalhostCIDRIPv6 : String := "::1/128"

/-- Modelled from the spec: the `consts` package is not among the sources; the spec
fixes `InboundPassthroughSourceAddressCIDRIPv4` as `127.0.0.6/32`. -/
def InboundPassthroughSourceAddressCIDRIPv4 : String := "127.0.0.6/32"

/-- Modelled from the spec: the `consts` package is not among the sources; the spec
fixes `InboundPassthroughSourceAddressCIDRIPv6` as `::6/128`. -/
def InboundPassthroughSourceAddressCIDRIPv6 : String := "::6/128"

end consts

/-! ## Package `parameters` -/

namespace parameters

/-- Modelled from the spec: the `parameters` package is not among the sources.  A
protocol match carries an optional destination port or negated destination port. -/
inductive TcpUdpParameter where
  | dport (port : Nat)
  | notDport (port : Nat)
  deriving DecidableEq, Repr

/-- Modelled from the spec: `DestinationPort(port)`, a present `--dport` option. -/
def DestinationPort (port : Nat) : Option TcpUdpParameter :=
  some (TcpUdpParameter.dport port)

/-- Modelled from the spec: `NotDestinationPortIf(predicate, port)` is the negated
destination port when the predicate holds and is absent otherwise. -/
def NotDestinationPortIf (predicate : Unit → Bool) (port : Nat) : Option TcpUdpParameter :=
  if predicate () then some (TcpUdpParameter.notDport port) else none

/-- Modelled from the spec: the protocol of a match, `tcp` or `udp`, with the port
options that are present. -/
inductive ProtocolParameter where
  | tcp (options : List TcpUdpParameter)
  | udp (options : List TcpUdpParameter)
  deriving DecidableEq, Repr

/-- Modelled from the spec: `Tcp(options...)`; absent options are skipped. -/
def Tcp (options : List (Option TcpUdpParameter)) : ProtocolParameter :=
  ProtocolParameter.tcp (options.filterMap id)

/-- Modelled from the spec: `Udp(options...)`; absent options are skipped. -/
def Udp (options : List (Option TcpUdpParameter)) : ProtocolParameter :=
  ProtocolParameter.udp (options.filterMap id)

/-- Modelled from the spec: the owner match, `--uid-owner U` or `! --uid-owner U`. -/
inductive OwnerParameter where
  | Uid (uid : String)
  | NotUid (uid : String)
  deriving DecidableEq, Repr

/-- Modelled from the spec: `Owner(...)`, the only match extension the builder uses. -/
inductive MatchParameter where
  | Owner (owner : OwnerParameter)
  deriving DecidableEq, Repr

/-- Modelled from the spec: `Address(cidr)` passes the CIDR text on. -/
def Address (cidr : String) : String := cidr

/-- Modelled from the spec: the match predicates of a rule. -/
inductive Parameter where
  | Protocol (proto : ProtocolParameter)
  | Source (cidr : String)
  | Destination (cidr : String)
  | NotDestination (cidr : String)
  | OutInterface (iface : String)
  | Match (m : MatchParameter)
  deriving DecidableEq, Repr

/-- Modelled from the spec: the jump targets `RETURN`, `REDIRECT --to-ports` and
a jump to a user-defined chain. -/
inductive JumpParameter where
  | Return
  | ToPort (port : Nat)
  | ToUserDefinedChain (chainName : String)
  deriving DecidableEq, Repr

/-- Modelled from the spec: `Jump(target)` marks the target of a rule. -/
def Jump (target : JumpParameter) : JumpParameter := target

end parameters

/-! ## Package `chain` -/

namespace chain

/-- Modelled from the spec: a rule is a list of match predicates and exactly one
jump target. -/
structure Rule where
  predicates : List parameters.Parameter
  jump : parameters.JumpParameter
  deriving DecidableEq, Repr

/-- Modelled from the spec: a chain is a name and an ordered sequence of rules. -/
structure Chain where
  name : String
  rules : List Rule
  deriving DecidableEq, Repr

/-- Modelled from the spec: `NewChain(name)` produces an empty chain. -/
def NewChain (name : String) : Chain :=
  { name := name, rules := [] }

/-- Modelled from the spec: `chain.Append(predicates..., jump)` appends one rule at
the end of the chain. -/
def Chain.Append (c : Chain) (predicates : List parameters.Parameter)
    (jump : parameters.JumpParameter) : Chain :=
  { c with rules := c.rules ++ [{ predicates := predicates, jump := jump }] }

end chain

/-! ## Package `table` -/

namespace table

/-- Modelled from the spec: the NAT table holds the built-in chains `PREROUTING` and
`OUTPUT` and the user-defined chains in registration order. -/
structure NatTable where
  prerouting : chain.Chain
  output : chain.Chain
  chains : List chain.Chain
  deriving DecidableEq, Repr

/-- Modelled from the spec: `table.Nat()`, the NAT table with empty built-in chains
and no user-defined chain. -/
def NewNat : NatTable :=
  { prerouting := chain.NewChain "PREROUTING"
    output := chain.NewChain "OUTPUT"
    chains := [] }

/-- Modelled from the spec: `nat.WithChain(c)` registers a user-defined chain after
those already registered. -/
def NatTable.WithChain (t : NatTable) (c : chain.Chain) : NatTable :=
  { t with chains := t.chains ++ [c] }

end table

/-! ## Package `config` (`transparent-proxy/config/config.go`) -/

namespace config

structure Owner where
  UID : String
  deriving DecidableEq, Repr

structure Chain where
  Name : String
  deriving DecidableEq, Repr

/-- Method `func (c Chain) GetFullName(prefix string) string`. -/
def Chain.GetFullName (c : Chain) (pfx : String) : String :=
  pfx ++ c.Name

/-- Struct `TrafficFlow` is the struct for the Inbound/Outbound configuration. -/
structure TrafficFlow where
  Enabled : Bool
  Port : Nat
  PortIPv6 : Nat
  Chain : KumaNet.config.Chain
  RedirectChain : KumaNet.config.Chain
  ExcludePorts : List Nat
  IncludePorts : List Nat
  deriving DecidableEq, Repr

structure DNS where
  Enabled : Bool
  CaptureAll : Bool
  Port : Nat
  ConntrackZoneSplit : Bool
  ResolvConfigPath : String
  deriving DecidableEq, Repr

structure Redirect where
  NamePrefix : String
  Inbound : TrafficFlow
  Outbound : TrafficFlow
  DNS : KumaNet.config.DNS
  deriving DecidableEq, Repr

structure Ebpf where
  Enabled : Bool
  InstanceIP : String
  BPFFSPath : String
  ProgramsSourcePath : String
  deriving DecidableEq, Repr

/-- The `Config` struct.  The two `io.Writer` fields are `none` for a nil writer
and `some w` for the writer with handle `w`. -/
structure Config where
  Owner : KumaNet.config.Owner
  Redirect : KumaNet.config.Redirect
  Ebpf : KumaNet.config.Ebpf
  DropInvalidPackets : Bool
  IPv6 : Bool
  RuntimeStdout : Option Nat
  RuntimeStderr : Option Nat
  Verbose : Bool
  DryRun : Bool
  deriving DecidableEq, Repr

/-- Method `func (c Config) ShouldDropInvalidPackets() bool`. -/
def Config.ShouldDropInvalidPackets (c : Config) : Bool :=
  c.DropInvalidPackets

/-- Method `func (c Config) ShouldRedirectDNS() bool`. -/
def Config.ShouldRedirectDNS (c : Config) : Bool :=
  c.Redirect.DNS.Enabled

/-- Method `func (c Config) ShouldCaptureAllDNS() bool`. -/
def Config.ShouldCaptureAllDNS (c : Config) : Bool :=
  c.Redirect.DNS.CaptureAll

/-- Function `defaultConfig()`.  The writers `os.Stdout` and `os.Stderr` are the
handles 1 and 2. -/
def defaultConfig : Config :=
  { Owner := { UID := "5678" }
    Redirect :=
      { NamePrefix := ""
        Inbound :=
          { Enabled := true
            Port := 15006
            PortIPv6 := 15010
            Chain := { Name := "MESH_INBOUND" }
            RedirectChain := { Name := "MESH_INBOUND_REDIRECT" }
            ExcludePorts := []
            IncludePorts := [] }
        Outbound :=
          { Enabled := true
            Port := 15001
            PortIPv6 := 0
            Chain := { Name := "MESH_OUTBOUND" }
            RedirectChain := { Name := "MESH_OUTBOUND_REDIRECT" }
            ExcludePorts := []
            IncludePorts := [] }
        DNS :=
          { Port := 15053
            Enabled := false
            CaptureAll := true
            ConntrackZoneSplit := true
            ResolvConfigPath := "/etc/resolv.conf" } }
    Ebpf :=
      { Enabled := false
        InstanceIP := ""
        BPFFSPath := "/run/kuma/bpf"
        ProgramsSourcePath := "/kuma/ebpf" }
    DropInvalidPackets := false
    IPv6 := false
    RuntimeStdout := some 1
    RuntimeStderr := some 2
    Verbose := true
    DryRun := false }

end config

/-! ## Package `builder` (`iptables/builder/builder_nat.go`) -/

namespace builder

open parameters chain consts

/-- Function `buildMeshInbound(cfg, prefix, meshInboundRedirect)`. -/
def buildMeshInbound (cfg : config.TrafficFlow) (pfx : String)
    (meshInboundRedirect : String) : Chain :=
  let meshInbound := NewChain (cfg.Chain.GetFullName pfx)
  if !cfg.Enabled then
    meshInbound.Append [Parameter.Protocol (Tcp [])] (Jump JumpParameter.Return)
  else
    -- Include inbound ports
    let meshInbound := cfg.IncludePorts.foldl
      (fun (c : Chain) (port : Nat) =>
        c.Append [Parameter.Protocol (Tcp [DestinationPort port])]
          (Jump (JumpParameter.ToUserDefinedChain meshInboundRedirect)))
      meshInbound
    if cfg.IncludePorts.length == 0 then
      -- Excluded outbound ports
      let meshInbound := cfg.ExcludePorts.foldl
        (fun (c : Chain) (port : Nat) =>
          c.Append [Parameter.Protocol (Tcp [DestinationPort port])]
            (Jump JumpParameter.Return))
        meshInbound
      meshInbound.Append [Parameter.Protocol (Tcp [])]
        (Jump (JumpParameter.ToUserDefinedChain meshInboundRedirect))
    else
      meshInbound

/-- Function `buildMeshOutbound(cfg, dnsServers, loopback, ipv6)`. -/
def buildMeshOutbound (cfg : config.Config) (dnsServers : List String)
    (loopback : String) (ipv6 : Bool) : Chain :=
  let pfx := cfg.Redirect.NamePrefix
  let inboundRedirectChainName := cfg.Redirect.Inbound.RedirectChain.GetFullName pfx
  let outboundChainName := cfg.Redirect.Outbound.Chain.GetFullName pfx
  let outboundRedirectChainName := cfg.Redirect.Outbound.RedirectChain.GetFullName pfx
  let excludePorts := cfg.Redirect.Outbound.ExcludePorts
  let includePorts := cfg.Redirect.Outbound.IncludePorts
  let hasIncludedPorts := decide (includePorts.length > 0)
  let dnsRedirectPort := cfg.Redirect.DNS.Port
  let uid := cfg.Owner.UID
  let localhost := if ipv6 then LocalhostCIDRIPv6 else LocalhostCIDRIPv4
  let inboundPassthroughSourceAddress :=
    if ipv6 then InboundPassthroughSourceAddressCIDRIPv6
    else InboundPassthroughSourceAddressCIDRIPv4
  let meshOutbound := NewChain outboundChainName
  if !cfg.Redirect.Outbound.Enabled then
    meshOutbound.Append [Parameter.Protocol (Tcp [])] (Jump JumpParameter.Return)
  else
    -- Excluded outbound ports
    let meshOutbound :=
      if !hasIncludedPorts then
        excludePorts.foldl
          (fun (c : Chain) (port : Nat) =>
            c.Append [Parameter.Protocol (Tcp [DestinationPort port])]
              (Jump JumpParameter.Return))
          meshOutbound
      else meshOutbound
    let meshOutbound := meshOutbound.Append
      [Parameter.Source (Address inboundPassthroughSourceAddress),
       Parameter.OutInterface loopback]
      (Jump JumpParameter.Return)
    let meshOutbound := meshOutbound.Append
      [Parameter.Protocol (Tcp [NotDestinationPortIf (fun _ => cfg.ShouldRedirectDNS) DNSPort]),
       Parameter.OutInterface loopback,
       Parameter.NotDestination localhost,
       Parameter.Match (MatchParameter.Owner (OwnerParameter.Uid uid))]
      (Jump (JumpParameter.ToUserDefinedChain inboundRedirectChainName))
    let meshOutbound := meshOutbound.Append
      [Parameter.Protocol (Tcp [NotDestinationPortIf (fun _ => cfg.ShouldRedirectDNS) DNSPort]),
       Parameter.OutInterface loopback,
       Parameter.Match (MatchParameter.Owner (OwnerParameter.NotUid uid))]
      (Jump JumpParameter.Return)
    let meshOutbound := meshOutbound.Append
      [Parameter.Match (MatchParameter.Owner (OwnerParameter.Uid uid))]
      (Jump JumpParameter.Return)
    let meshOutbound :=
      if cfg.ShouldRedirectDNS then
        if cfg.ShouldCaptureAllDNS then
          meshOutbound.Append
            [Parameter.Protocol (Tcp [DestinationPort DNSPort])]
            (Jump (JumpParameter.ToPort dnsRedirectPort))
        else
          dnsServers.foldl
            (fun (c : Chain) (dnsIp : String) =>
              c.Append
                [Parameter.Destination dnsIp,
                 Parameter.Protocol (Tcp [DestinationPort DNSPort])]
                (Jump (JumpParameter.ToPort dnsRedirectPort)))
            meshOutbound
      else meshOutbound
    let meshOutbound := meshOutbound.Append
      [Parameter.Destination localhost]
      (Jump JumpParameter.Return)
    if hasIncludedPorts then
      includePorts.foldl
        (fun (c : Chain) (port : Nat) =>
          c.Append [Parameter.Protocol (Tcp [DestinationPort port])]
            (Jump (JumpParameter.ToUserDefinedChain outboundRedirectChainName)))
        meshOutbound
    else
      meshOutbound.Append []
        (Jump (JumpParameter.ToUserDefinedChain outboundRedirectChainName))

/-- Function `buildMeshRedirect(cfg, prefix, ipv6)`. -/
def buildMeshRedirect (cfg : config.TrafficFlow) (pfx : String) (ipv6 : Bool) : Chain :=
  let chainName := cfg.RedirectChain.GetFullName pfx
  let redirectPort := if ipv6 && cfg.PortIPv6 != 0 then cfg.PortIPv6 else cfg.Port
  (NewChain chainName).Append [Parameter.Protocol (Tcp [])]
    (Jump (JumpParameter.ToPort redirectPort))

/-- Function `addOutputRules(cfg, dnsServers, nat)`; the table it mutates is
returned. -/
def addOutputRules (cfg : config.Config) (dnsServers : List String)
    (nat : table.NatTable) : table.NatTable :=
  let outboundChainName := cfg.Redirect.Outbound.Chain.GetFullName cfg.Redirect.NamePrefix
  let dnsRedirectPort := cfg.Redirect.DNS.Port
  let uid := cfg.Owner.UID
  let nat :=
    if cfg.ShouldRedirectDNS then
      let nat := { nat with output := (nat.output.Append
        [Parameter.Protocol (Udp [DestinationPort DNSPort]),
         Parameter.Match (MatchParameter.Owner (OwnerParameter.Uid uid))]
        (Jump JumpParameter.Return)) }
      if cfg.ShouldCaptureAllDNS then
        { nat with output := (nat.output.Append
            [Parameter.Protocol (Udp [DestinationPort DNSPort])]
            (Jump (JumpParameter.ToPort dnsRedirectPort))) }
      else
        dnsServers.foldl
          (fun (t : table.NatTable) (dnsIp : String) =>
            { t with output := (t.output.Append
                [Parameter.Destination dnsIp,
                 Parameter.Protocol (Udp [DestinationPort DNSPort])]
                (Jump (JumpParameter.ToPort dnsRedirectPort))) })
          nat
    else nat
  { nat with output := (nat.output.Append [Parameter.Protocol (Tcp [])]
      (Jump (JumpParameter.ToUserDefinedChain outboundChainName))) }

/-- Function `buildNatTable(cfg, dnsServers, loopback, ipv6)`. -/
def buildNatTable (cfg : config.Config) (dnsServers : List String)
    (loopback : String) (ipv6 : Bool) : table.NatTable :=
  let pfx := cfg.Redirect.NamePrefix
  let inboundRedirectChainName := cfg.Redirect.Inbound.RedirectChain.GetFullName pfx
  let inboundChainName := cfg.Redirect.Inbound.Chain.GetFullName pfx
  let nat := table.NewNat
  let nat := { nat with prerouting := (nat.prerouting.Append
    [Parameter.Protocol (Tcp [])]
    (Jump (JumpParameter.ToUserDefinedChain inboundChainName))) }
  let nat := addOutputRules cfg dnsServers nat
  -- MESH_INBOUND
  let meshInbound := buildMeshInbound cfg.Redirect.Inbound pfx inboundRedirectChainName
  -- MESH_INBOUND_REDIRECT
  let meshInboundRedirect := buildMeshRedirect cfg.Redirect.Inbound pfx ipv6
  -- MESH_OUTBOUND
  let meshOutbound := buildMeshOutbound cfg dnsServers loopback ipv6
  -- MESH_OUTBOUND_REDIRECT
  let meshOutboundRedirect := buildMeshRedirect cfg.Redirect.Outbound pfx ipv6
  (((nat.WithChain meshInbound).WithChain meshOutbound).WithChain
    meshInboundRedirect).WithChain meshOutboundRedirect

end builder

/-! ## Rule shapes named in the specification -/

namespace spec

open parameters chain

/-- Rule `-p tcp -j RETURN`. -/
def tcpReturn : Rule :=
  { predicates := [Parameter.Protocol (ProtocolParameter.tcp [])],
    jump := JumpParameter.Return }

/-- Rule `-p tcp --dport p -j RETURN`. -/
def portReturn (p : Nat) : Rule :=
  { predicates := [Parameter.Protocol (ProtocolParameter.tcp [TcpUdpParameter.dport p])],
    jump := JumpParameter.Return }

/-- Rule `-p tcp -j R` for a user-defined chain `R`. -/
def tcpJump (R : String) : Rule :=
  { predicates := [Parameter.Protocol (ProtocolParameter.tcp [])],
    jump := JumpParameter.ToUserDefinedChain R }

/-- Rule `-p tcp --dport p -j R` for a user-defined chain `R`. -/
def portJump (p : Nat) (R : String) : Rule :=
  { predicates := [Parameter.Protocol (ProtocolParameter.tcp [TcpUdpParameter.dport p])],
    jump := JumpParameter.ToUserDefinedChain R }

/-- Rule `-j R` without predicates. -/
def bareJump (R : String) : Rule :=
  { predicates := [], jump := JumpParameter.ToUserDefinedChain R }

/-- Rule `-p tcp -j REDIRECT --to-ports P`. -/
def tcpRedirect (P : Nat) : Rule :=
  { predicates := [Parameter.Protocol (ProtocolParameter.tcp [])],
    jump := JumpParameter.ToPort P }

/-- Rule `-s SRC -o loopback -j RETURN`, the hairpin passthrough. -/
def hairpin (src loopback : String) : Rule :=
  { predicates := [Parameter.Source src, Parameter.OutInterface loopback],
    jump := JumpParameter.Return }

/-- Protocol predicate of the two loopback rules: `-p tcp ! --dport 53` when DNS is
redirected, plain `-p tcp` otherwise. -/
def loopbackTcp (redirectDNS : Bool) : Parameter :=
  Parameter.Protocol
    (ProtocolParameter.tcp (if redirectDNS then [TcpUdpParameter.notDport 53] else []))

/-- Rule `-p tcp [! --dport 53] -o loopback ! -d LOCALHOST -m owner --uid-owner U -j IR`. -/
def loopbackToInbound (redirectDNS : Bool) (loopback localhost U IR : String) : Rule :=
  { predicates := [loopbackTcp redirectDNS, Parameter.OutInterface loopback,
      Parameter.NotDestination localhost,
      Parameter.Match (MatchParameter.Owner (OwnerParameter.Uid U))],
    jump := JumpParameter.ToUserDefinedChain IR }

/-- Rule `-p tcp [! --dport 53] -o loopback -m owner ! --uid-owner U -j RETURN`. -/
def loopbackReturn (redirectDNS : Bool) (loopback U : String) : Rule :=
  { predicates := [loopbackTcp redirectDNS, Parameter.OutInterface loopback,
      Parameter.Match (MatchParameter.Owner (OwnerParameter.NotUid U))],
    jump := JumpParameter.Return }

/-- Rule `-m owner --uid-owner U -j RETURN`, the sidecar exemption. -/
def uidReturn (U : String) : Rule :=
  { predicates := [Parameter.Match (MatchParameter.Owner (OwnerParameter.Uid U))],
    jump := JumpParameter.Return }

/-- Rule `-p tcp --dport 53 -j REDIRECT --to-ports P`. -/
def dnsTcpAll (P : Nat) : Rule :=
  { predicates := [Parameter.Protocol (ProtocolParameter.tcp [TcpUdpParameter.dport 53])],
    jump := JumpParameter.ToPort P }

/-- Rule `-d d -p tcp --dport 53 -j REDIRECT --to-ports P`. -/
def dnsTcpTo (d : String) (P : Nat) : Rule :=
  { predicates := [Parameter.Destination d,
      Parameter.Protocol (ProtocolParameter.tcp [TcpUdpParameter.dport 53])],
    jump := JumpParameter.ToPort P }

/-- Rule `-d LOCALHOST -j RETURN`. -/
def localhostReturn (localhost : String) : Rule :=
  { predicates := [Parameter.Destination localhost], jump := JumpParameter.Return }

/-- Localhost CIDR of the address family: `::1/128` for IPv6, `127.0.0.1/32` for IPv4. -/
def localhostCIDR (ipv6 : Bool) : String :=
  if ipv6 then "::1/128" else "127.0.0.1/32"

/-- Passthrough source CIDR of the address family: `::6/128` for IPv6,
`127.0.0.6/32` for IPv4. -/
def passthroughCIDR (ipv6 : Bool) : String :=
  if ipv6 then "::6/128" else "127.0.0.6/32"

/-- Exclude rules at the head of `MESH_OUTBOUND`: one per exclude port, only when the
include list is empty. -/
def outboundExcludes (cfg : config.Config) : List Rule :=
  if cfg.Redirect.Outbound.IncludePorts = [] then
    cfg.Redirect.Outbound.ExcludePorts.map (fun p => portReturn p)
  else []

/-- DNS rules of `MESH_OUTBOUND`: none when DNS is not redirected, one capture-all rule,
or one rule per nameserver. -/
def outboundDNS (cfg : config.Config) (dnsServers : List String) : List Rule :=
  if cfg.Redirect.DNS.Enabled then
    if cfg.Redirect.DNS.CaptureAll then [dnsTcpAll cfg.Redirect.DNS.Port]
    else dnsServers.map (fun d => dnsTcpTo d cfg.Redirect.DNS.Port)
  else []

/-- Final dispatch of `MESH_OUTBOUND`: one rule per include port, or a single
unconditional jump. -/
def outboundDispatch (cfg : config.Config) : List Rule :=
  if cfg.Redirect.Outbound.IncludePorts = [] then
    [bareJump (cfg.Redirect.Outbound.RedirectChain.GetFullName cfg.Redirect.NamePrefix)]
  else
    cfg.Redirect.Outbound.IncludePorts.map
      (fun p => portJump p (cfg.Redirect.Outbound.RedirectChain.GetFullName cfg.Redirect.NamePrefix))

/-- Whether the target of a rule is `REDIRECT --to-ports`. -/
def isRedirect (r : Rule) : Bool :=
  match r.jump with
  | JumpParameter.ToPort _ => true
  | _ => false

/-- Whether a rule has the shape `-p tcp --dport p -j RETURN` of an exclude rule. -/
def isPortReturn (r : Rule) : Bool :=
  match r with
  | { predicates := [Parameter.Protocol (ProtocolParameter.tcp [TcpUdpParameter.dport _])],
      jump := JumpParameter.Return } => true
  | _ => false

/-- The sidecar exemption `-m owner --uid-owner U -j RETURN` occurs in `rules` at a
position after every rule that matches on the output interface `loopback` and
before every rule that jumps to the chain `OR`. -/
def UidExemptionPlaced (rules : List Rule) (U loopback OR : String) : Prop :=
  ∃ i : Nat, rules[i]? = some (uidReturn U) ∧
    (∀ (j : Nat) (r : Rule), rules[j]? = some r →
      Parameter.OutInterface loopback ∈ r.predicates → j < i) ∧
    (∀ (j : Nat) (r : Rule), rules[j]? = some r →
      r.jump = JumpParameter.ToUserDefinedChain OR → i < j)

/-- A configuration as `defaultConfig()` gives it, except that the inbound and the
outbound redirect chain are both named `MESH_REDIRECT`. -/
def sharedRedirectConfig : config.Config :=
  { config.defaultConfig with
    Redirect :=
      { config.defaultConfig.Redirect with
        Inbound :=
          { config.defaultConfig.Redirect.Inbound with
            RedirectChain := { Name := "MESH_REDIRECT" } }
        Outbound :=
          { config.defaultConfig.Redirect.Outbound with
            RedirectChain := { Name := "MESH_REDIRECT" } } } }

end spec

namespace spec
open parameters chain

/-- Rule `-p udp --dport 53 -m owner --uid-owner U -j RETURN`. -/
def uidUdpReturn (U : String) : Rule :=
  { predicates := [Parameter.Protocol (ProtocolParameter.udp [TcpUdpParameter.dport 53]),
      Parameter.Match (MatchParameter.Owner (OwnerParameter.Uid U))],
    jump := JumpParameter.Return }

/-- Rule `-p udp --dport 53 -j REDIRECT --to-ports P`. -/
def dnsUdpAll (P : Nat) : Rule :=
  { predicates := [Parameter.Protocol (ProtocolParameter.udp [TcpUdpParameter.dport 53])],
    jump := JumpParameter.ToPort P }

/-- Rule `-d d -p udp --dport 53 -j REDIRECT --to-ports P`. -/
def dnsUdpTo (d : String) (P : Nat) : Rule :=
  { predicates := [Parameter.Destination d,
      Parameter.Protocol (ProtocolParameter.udp [TcpUdpParameter.dport 53])],
    jump := JumpParameter.ToPort P }

/-- DNS rules of `OUTPUT`: none when DNS is not redirected; otherwise the sidecar
exemption followed by one capture-all rule or one rule per nameserver. -/
def outputDNS (cfg : config.Config) (dnsServers : List String) : List Rule :=
  if cfg.Redirect.DNS.Enabled then
    uidUdpReturn cfg.Owner.UID ::
      (if cfg.Redirect.DNS.CaptureAll then [dnsUdpAll cfg.Redirect.DNS.Port]
       else dnsServers.map (fun d => dnsUdpTo d cfg.Redirect.DNS.Port))
  else []

/-- Every jump to a user-defined chain in the table names a registered user chain. -/
def JumpsResolved (t : table.NatTable) : Prop :=
  ∀ c ∈ t.prerouting :: t.output :: t.chains, ∀ r ∈ c.rules, ∀ n : String,
    r.jump = JumpParameter.ToUserDefinedChain n → ∃ c' ∈ t.chains, c'.name = n

/-- Rules of `MESH_INBOUND`. -/
def inboundRules (cfg : config.TrafficFlow) (R : String) : List Rule :=
  if cfg.Enabled then
    if cfg.IncludePorts = [] then
      cfg.ExcludePorts.map (fun p => portReturn p) ++ [tcpJump R]
    else cfg.IncludePorts.map (fun p => portJump p R)
  else [tcpReturn]

/-- Rules of `MESH_OUTBOUND`. -/
def outboundRules (cfg : config.Config) (dnsServers : List String) (loopback : String)
    (ipv6 : Bool) : List Rule :=
  if cfg.Redirect.Outbound.Enabled then
    outboundExcludes cfg ++
      (hairpin (passthroughCIDR ipv6) loopback ::
       loopbackToInbound cfg.Redirect.DNS.Enabled loopback (localhostCIDR ipv6)
         cfg.Owner.UID (cfg.Redirect.Inbound.RedirectChain.GetFullName cfg.Redirect.NamePrefix) ::
       loopbackReturn cfg.Redirect.DNS.Enabled loopback cfg.Owner.UID ::
       uidReturn cfg.Owner.UID ::
       (outboundDNS cfg dnsServers ++
         (localhostReturn (localhostCIDR ipv6) :: outboundDispatch cfg)))
  else [tcpReturn]

/-- Effective port of a redirect chain: `PortIPv6` for IPv6 when it is not 0, `Port`
otherwise. -/
def redirectPort (flow : config.TrafficFlow) (ipv6 : Bool) : Nat :=
  if ipv6 = true ∧ flow.PortIPv6 ≠ 0 then flow.PortIPv6 else flow.Port

/-- Whether a list of port options names the port `p`, as `--dport p` or as
`! --dport p`. -/
def optionsMention (options : List TcpUdpParameter) (p : Nat) : Bool :=
  options.any (fun o =>
    match o with
    | TcpUdpParameter.dport q => q == p
    | TcpUdpParameter.notDport q => q == p)

/-- Whether a match predicate names the port `p`. -/
def predicateMentions (x : Parameter) (p : Nat) : Bool :=
  match x with
  | Parameter.Protocol (ProtocolParameter.tcp options) => optionsMention options p
  | Parameter.Protocol (ProtocolParameter.udp options) => optionsMention options p
  | _ => false

/-- Whether a rule references the port `p`: as a destination port, as a negated
destination port or as the port of a `REDIRECT` target. -/
def referencesPort (r : Rule) (p : Nat) : Bool :=
  r.predicates.any (fun x => predicateMentions x p) ||
    (match r.jump with
     | JumpParameter.ToPort q => q == p
     | _ => false)

/-- All chains of a table: the built-ins followed by the user-defined chains. -/
def allChains (t : table.NatTable) : List Chain :=
  t.prerouting :: t.output :: t.chains

/-- A configuration as `defaultConfig()` gives it (DNS redirection off), except that
port 53 is an inbound exclude port. -/
def excludeDNSPortConfig : config.Config :=
  { config.defaultConfig with
    Redirect :=
      { config.defaultConfig.Redirect with
        Inbound :=
          { config.defaultConfig.Redirect.Inbound with ExcludePorts := [53] } } }

end spec

namespace spec

open parameters chain

/-- The IPv6 counterpart of a match predicate: the passthrough source `127.0.0.6/32`
becomes `::6/128`, and the localhost CIDR `127.0.0.1/32` becomes `::1/128` where it
stands as localhost, that is in `! -d` and in the `-d` of a rule that returns. -/
def ipv6Predicate (returns : Bool) (x : Parameter) : Parameter :=
  match x with
  | Parameter.Source c =>
      Parameter.Source (if c = "127.0.0.6/32" then "::6/128" else c)
  | Parameter.NotDestination c =>
      Parameter.NotDestination (if c = "127.0.0.1/32" then "::1/128" else c)
  | Parameter.Destination c =>
      Parameter.Destination (if returns = true ∧ c = "127.0.0.1/32" then "::1/128" else c)
  | other => other

/-- The IPv6 counterpart of a rule: its predicates with the address-family constants
substituted, the target unchanged. -/
def ipv6Rule (r : Rule) : Rule :=
  { r with predicates :=
      r.predicates.map (ipv6Predicate (decide (r.jump = JumpParameter.Return))) }

/-- The IPv6 counterpart of a rule of a redirect chain: `Port` becomes `PortIPv6` when
`PortIPv6` is not 0. -/
def ipv6Redirect (flow : config.TrafficFlow) (r : Rule) : Rule :=
  { r with jump :=
      match r.jump with
      | JumpParameter.ToPort p =>
          JumpParameter.ToPort (if p = flow.Port ∧ flow.PortIPv6 ≠ 0 then flow.PortIPv6 else p)
      | other => other }

/-- A chain with `f` applied to every rule, name and order kept. -/
def mapRules (f : Rule → Rule) (c : Chain) : Chain :=
  { c with rules := c.rules.map f }

/-- The IPv6 counterpart of an IPv4 table, rule by rule: the address-family constants
are substituted in the built-ins and in the first two user chains, the port in the
two redirect chains. -/
def toIPv6 (cfg : config.Config) (t : table.NatTable) : table.NatTable :=
  { prerouting := mapRules ipv6Rule t.prerouting
    output := mapRules ipv6Rule t.output
    chains := List.zipWith (fun (f : Chain → Chain) (c : Chain) => f c)
      [mapRules ipv6Rule, mapRules ipv6Rule,
       mapRules (ipv6Redirect cfg.Redirect.Inbound),
       mapRules (ipv6Redirect cfg.Redirect.Outbound)]
      t.chains }

end spec

namespace config

/-- The statement of `MergeConfigWithDefaults` under `// .Owner`. -/
def mergeOwner (cfg result : Config) : Config :=
  if cfg.Owner.UID != "" then { result with Owner.UID := cfg.Owner.UID } else result

/-- The statement of `MergeConfigWithDefaults` under `// .Redirect`. -/
def mergeRedirect (cfg result : Config) : Config :=
  if cfg.Redirect.NamePrefix != "" then
    { result with Redirect.NamePrefix := cfg.Redirect.NamePrefix }
  else result

/-- The statements of `MergeConfigWithDefaults` under `// .Redirect.Inbound`. -/
def mergeInbound (cfg result : Config) : Config :=
  let result := { result with Redirect.Inbound.Enabled := cfg.Redirect.Inbound.Enabled }
  let result :=
    if cfg.Redirect.Inbound.Port != 0 then
      { result with Redirect.Inbound.Port := cfg.Redirect.Inbound.Port }
    else result
  let result :=
    if cfg.Redirect.Inbound.PortIPv6 != 0 then
      { result with Redirect.Inbound.PortIPv6 := cfg.Redirect.Inbound.PortIPv6 }
    else result
  let result :=
    if cfg.Redirect.Inbound.Chain.Name != "" then
      { result with Redirect.Inbound.Chain.Name := cfg.Redirect.Inbound.Chain.Name }
    else result
  let result :=
    if cfg.Redirect.Inbound.RedirectChain.Name != "" then
      { result with
        Redirect.Inbound.RedirectChain.Name := cfg.Redirect.Inbound.RedirectChain.Name }
    else result
  let result :=
    if cfg.Redirect.Inbound.ExcludePorts.length > 0 then
      { result with Redirect.Inbound.ExcludePorts := cfg.Redirect.Inbound.ExcludePorts }
    else result
  let result :=
    if cfg.Redirect.Inbound.IncludePorts.length > 0 then
      { result with Redirect.Inbound.IncludePorts := cfg.Redirect.Inbound.IncludePorts }
    else result
  result

/-- The statements of `MergeConfigWithDefaults` under `// .Redirect.Outbound`. -/
def mergeOutbound (cfg result : Config) : Config :=
  let result := { result with Redirect.Outbound.Enabled := cfg.Redirect.Outbound.Enabled }
  let result :=
    if cfg.Redirect.Outbound.Port != 0 then
      { result with Redirect.Outbound.Port := cfg.Redirect.Outbound.Port }
    else result
  let result :=
    if cfg.Redirect.Outbound.Chain.Name != "" then
      { result with Redirect.Outbound.Chain.Name := cfg.Redirect.Outbound.Chain.Name }
    else result
  let result :=
    if cfg.Redirect.Outbound.RedirectChain.Name != "" then
      { result with
        Redirect.Outbound.RedirectChain.Name := cfg.Redirect.Outbound.RedirectChain.Name }
    else result
  let result :=
    if cfg.Redirect.Outbound.ExcludePorts.length > 0 then
      { result with Redirect.Outbound.ExcludePorts := cfg.Redirect.Outbound.ExcludePorts }
    else result
  let result :=
    if cfg.Redirect.Outbound.IncludePorts.length > 0 then
      { result with Redirect.Outbound.IncludePorts := cfg.Redirect.Outbound.IncludePorts }
    else result
  result

/-- The statements of `MergeConfigWithDefaults` under `// .Redirect.DNS`. -/
def mergeDNS (cfg result : Config) : Config :=
  let result := { result with Redirect.DNS.Enabled := cfg.Redirect.DNS.Enabled }
  let result :=
    { result with Redirect.DNS.ConntrackZoneSplit := cfg.Redirect.DNS.ConntrackZoneSplit }
  let result := { result with Redirect.DNS.CaptureAll := cfg.Redirect.DNS.CaptureAll }
  let result :=
    if cfg.Redirect.DNS.ResolvConfigPath != "" then
      { result with Redirect.DNS.ResolvConfigPath := cfg.Redirect.DNS.ResolvConfigPath }
    else result
  let result :=
    if cfg.Redirect.DNS.Port != 0 then
      { result with Redirect.DNS.Port := cfg.Redirect.DNS.Port }
    else result
  result

/-- The statements of `MergeConfigWithDefaults` under `// .Ebpf`. -/
def mergeEbpf (cfg result : Config) : Config :=
  let result := { result with Ebpf.Enabled := cfg.Ebpf.Enabled }
  let result :=
    if cfg.Ebpf.InstanceIP != "" then
      { result with Ebpf.InstanceIP := cfg.Ebpf.InstanceIP }
    else result
  let result :=
    if cfg.Ebpf.BPFFSPath != "" then
      { result with Ebpf.BPFFSPath := cfg.Ebpf.BPFFSPath }
    else result
  let result :=
    if cfg.Ebpf.ProgramsSourcePath != "" then
      { result with Ebpf.ProgramsSourcePath := cfg.Ebpf.ProgramsSourcePath }
    else result
  result

/-- The statements of `MergeConfigWithDefaults` from `// .DropInvalidPackets` to
`// .DryRun`. -/
def mergeRuntime (cfg result : Config) : Config :=
  -- .DropInvalidPackets
  let result := { result with DropInvalidPackets := cfg.DropInvalidPackets }
  -- .IPv6
  let result := { result with IPv6 := cfg.IPv6 }
  -- .RuntimeStdout
  let result :=
    if cfg.RuntimeStdout != none then { result with RuntimeStdout := cfg.RuntimeStdout }
    else result
  -- .RuntimeStderr
  let result :=
    if cfg.RuntimeStderr != none then { result with RuntimeStderr := cfg.RuntimeStderr }
    else result
  -- .Verbose
  let result := { result with Verbose := cfg.Verbose }
  -- .DryRun
  let result := { result with DryRun := cfg.DryRun }
  result

/-- Function `MergeConfigWithDefaults(cfg)`: the statements of the source in their
order, section by section, each on the `result` the previous ones left. -/
def MergeConfigWithDefaults (cfg : Config) : Config :=
  let result := defaultConfig
  let result := mergeOwner cfg result
  let result := mergeRedirect cfg result
  let result := mergeInbound cfg result
  let result := mergeOutbound cfg result
  let result := mergeDNS cfg result
  let result := mergeEbpf cfg result
  let result := mergeRuntime cfg result
  result

end config

namespace spec

/-- A configuration with only DNS redirection set and every other field at its zero
value, except for an outbound IPv6 port. -/
def dnsOnlyConfig : config.Config :=
  { Owner := { UID := "" }
    Redirect :=
      { NamePrefix := ""
        Inbound := { Enabled := false, Port := 0, PortIPv6 := 0, Chain := { Name := "" },
                     RedirectChain := { Name := "" }, ExcludePorts := [], IncludePorts := [] }
        Outbound := { Enabled := false, Port := 0, PortIPv6 := 7, Chain := { Name := "" },
                      RedirectChain := { Name := "" }, ExcludePorts := [], IncludePorts := [] }
        DNS := { Enabled := true, CaptureAll := false, Port := 99, ConntrackZoneSplit := false,
                 ResolvConfigPath := "" } }
    Ebpf := { Enabled := false, InstanceIP := "", BPFFSPath := "", ProgramsSourcePath := "" }
    DropInvalidPackets := false
    IPv6 := false
    RuntimeStdout := none
    RuntimeStderr := none
    Verbose := false
    DryRun := false }

end spec

namespace config

/-- What a call of `ShouldConntrackZoneSplit` did besides returning: whether it ran
the command `iptables -m conntrack --help`, and the texts it wrote to
`RuntimeStdout`. -/
structure ProbeTrace where
  probed : Bool
  written : List String
  deriving DecidableEq, Repr

/-- Method `func (c Config) ShouldConntrackZoneSplit() bool`.  The command
`iptables -m conntrack --help` is the argument `probe`: running it gives `none` when
it succeeds and `some err` when it fails with the error text `err`.  The result is
`none` when the call panics, which `fmt.Fprintf` does on a nil `RuntimeStdout`. -/
def Config.ShouldConntrackZoneSplit (c : Config) (probe : Unit → Option String) :
    Option (Bool × ProbeTrace) :=
  if !c.Redirect.DNS.Enabled || !c.Redirect.DNS.ConntrackZoneSplit then
    some (false, { probed := false, written := [] })
  else
    -- There are situations where conntrack extension is not present (WSL2)
    match probe () with
    | some err =>
      match c.RuntimeStdout with
      | none => none
      | some _ =>
        some (false,
          { probed := true,
            written :=
              ["[WARNING] error occured when validating if \x27conntrack\x27 iptables " ++
                "module is present. Rules for DNS conntrack zone " ++
                "splitting won\x27t be applied: " ++ err ++ "\n"] })
    | none => some (true, { probed := true, written := [] })

end config

namespace spec

open parameters chain

/-- The all-zero configuration, `Config{}` in the source language. -/
def zeroConfig : config.Config :=
  { Owner := { UID := "" }
    Redirect :=
      { NamePrefix := ""
        Inbound := { Enabled := false, Port := 0, PortIPv6 := 0, Chain := { Name := "" },
                     RedirectChain := { Name := "" }, ExcludePorts := [], IncludePorts := [] }
        Outbound := { Enabled := false, Port := 0, PortIPv6 := 0, Chain := { Name := "" },
                      RedirectChain := { Name := "" }, ExcludePorts := [], IncludePorts := [] }
        DNS := { Enabled := false, CaptureAll := false, Port := 0,
                 ConntrackZoneSplit := false, ResolvConfigPath := "" } }
    Ebpf := { Enabled := false, InstanceIP := "", BPFFSPath := "", ProgramsSourcePath := "" }
    DropInvalidPackets := false
    IPv6 := false
    RuntimeStdout := none
    RuntimeStderr := none
    Verbose := false
    DryRun := false }

/-- The configuration of the DNS/UDP tests of `dns_test.go`:
`Config{Redirect: {DNS: {Enabled: true, Port: p}}, IPv6: ipv6}` with a writer, every
other field at its zero value. -/
def dnsUdpTestConfig (p : Nat) (ipv6 : Bool) : config.Config :=
  { zeroConfig with
    Redirect := { zeroConfig.Redirect with
      DNS := { zeroConfig.Redirect.DNS with Enabled := true, Port := p } }
    IPv6 := ipv6
    RuntimeStdout := some 0 }

/-- The configuration of the DNS/TCP tests of `dns_test.go`:
`Config{Redirect: {DNS: {Enabled: true, Port: dnsPort}, Outbound: {Port: outboundPort}},
IPv6: ipv6}` with a writer, every other field at its zero value. -/
def dnsTcpTestConfig (dnsPort outboundPort : Nat) (ipv6 : Bool) : config.Config :=
  { zeroConfig with
    Redirect := { zeroConfig.Redirect with
      DNS := { zeroConfig.Redirect.DNS with Enabled := true, Port := dnsPort }
      Outbound := { zeroConfig.Redirect.Outbound with Port := outboundPort } }
    IPv6 := ipv6
    RuntimeStdout := some 0 }

/-- Whether a predicate restricts the destination address. -/
def isDestinationPredicate (x : Parameter) : Bool :=
  match x with
  | Parameter.Destination _ => true
  | Parameter.NotDestination _ => true
  | _ => false

/-- Whether a rule matches the protocol `proto` on destination port 53, has no
destination-address predicate, and redirects to port `p`. -/
def redirectsAnyDestination (proto : List TcpUdpParameter → ProtocolParameter) (p : Nat)
    (r : Rule) : Bool :=
  decide (Parameter.Protocol (proto [TcpUdpParameter.dport 53]) ∈ r.predicates) &&
    !(r.predicates.any isDestinationPredicate) &&
    decide (r.jump = JumpParameter.ToPort p)

end spec

namespace spec

/-- The configuration of the DNS/UDP tests of `dns_test.go` with capture-all set as
well: `Config{Redirect: {DNS: {Enabled: true, CaptureAll: true, Port: p}}, IPv6: ipv6}`
with a writer, every other field at its zero value. -/
def dnsUdpCaptureAllConfig (p : Nat) (ipv6 : Bool) : config.Config :=
  { zeroConfig with
    Redirect := { zeroConfig.Redirect with
      DNS := { zeroConfig.Redirect.DNS with Enabled := true, CaptureAll := true, Port := p } }
    IPv6 := ipv6
    RuntimeStdout := some 0 }

/-- The configuration of the DNS/TCP tests of `dns_test.go` with capture-all and
outbound redirection set as well:
`Config{Redirect: {DNS: {Enabled: true, CaptureAll: true, Port: dnsPort},
Outbound: {Enabled: true, Port: outboundPort}}, IPv6: ipv6}` with a writer, every other
field at its zero value. -/
def dnsTcpCaptureAllConfig (dnsPort outboundPort : Nat) (ipv6 : Bool) : config.Config :=
  { zeroConfig with
    Redirect := { zeroConfig.Redirect with
      DNS := { zeroConfig.Redirect.DNS with
        Enabled := true, CaptureAll := true, Port := dnsPort }
      Outbound := { zeroConfig.Redirect.Outbound with
        Enabled := true, Port := outboundPort } }
    IPv6 := ipv6
    RuntimeStdout := some 0 }

end spec

/-! ## Shared lemmas -/

section Lemmas

open parameters chain builder

/-- A loop that appends one rule per element appends the mapped list. -/
theorem foldl_Append_rules {α : Type} (f : α → List Parameter) (g : α → JumpParameter)
    (xs : List α) (c : Chain) :
    xs.foldl (fun (c : Chain) (x : α) => c.Append (f x) (g x)) c =
      { c with rules := c.rules ++ xs.map (fun x => { predicates := f x, jump := g x }) } := by
  induction xs generalizing c with
  | nil => simp
  | cons x xs ih =>
    rw [List.foldl_cons, ih]
    simp [Chain.Append]

/-- The rules of the enabled `MESH_OUTBOUND` chain, written out. -/
theorem buildMeshOutbound_rules (cfg : config.Config) (dnsServers : List String)
    (loopback : String) (ipv6 : Bool) (hen : cfg.Redirect.Outbound.Enabled = true) :
    (buildMeshOutbound cfg dnsServers loopback ipv6).rules =
      spec.outboundExcludes cfg ++
        (spec.hairpin (spec.passthroughCIDR ipv6) loopback ::
         spec.loopbackToInbound cfg.Redirect.DNS.Enabled loopback (spec.localhostCIDR ipv6)
           cfg.Owner.UID (cfg.Redirect.Inbound.RedirectChain.GetFullName cfg.Redirect.NamePrefix) ::
         spec.loopbackReturn cfg.Redirect.DNS.Enabled loopback cfg.Owner.UID ::
         spec.uidReturn cfg.Owner.UID ::
         (spec.outboundDNS cfg dnsServers ++
           (spec.localhostReturn (spec.localhostCIDR ipv6) :: spec.outboundDispatch cfg))) := by
  rcases cfg with ⟨⟨uid⟩, ⟨pfx, inb, ⟨en, port, port6, ch, rch, excl, incl⟩, ⟨dnsEn, capAll, dnsPort, zs, rp⟩⟩,
    ebpf, dropInv, v6, so, se, verbose, dry⟩
  simp only at hen
  subst hen
  simp only [buildMeshOutbound, foldl_Append_rules]
  cases incl <;> cases dnsEn <;> cases capAll <;> cases ipv6 <;>
    simp [Chain.Append, NewChain, Jump, Tcp,
      DestinationPort, NotDestinationPortIf, Address, config.Config.ShouldRedirectDNS,
      config.Config.ShouldCaptureAllDNS, consts.DNSPort, consts.LocalhostCIDRIPv4,
      consts.LocalhostCIDRIPv6, consts.InboundPassthroughSourceAddressCIDRIPv4,
      consts.InboundPassthroughSourceAddressCIDRIPv6, spec.outboundExcludes,
      spec.outboundDNS, spec.outboundDispatch, spec.hairpin, spec.loopbackToInbound,
      spec.loopbackReturn, spec.uidReturn, spec.localhostReturn, spec.localhostCIDR,
      spec.passthroughCIDR, spec.loopbackTcp, spec.portReturn, spec.portJump,
      spec.bareJump, spec.dnsTcpAll, spec.dnsTcpTo]

/-- A loop that only extends the `OUTPUT` chain leaves the other chains of the table
as they were. -/
theorem foldl_output_frame {α : Type} (f : table.NatTable → α → Chain) (xs : List α)
    (t : table.NatTable) :
    (xs.foldl (fun (t : table.NatTable) (x : α) => { t with output := f t x }) t).chains =
        t.chains ∧
    (xs.foldl (fun (t : table.NatTable) (x : α) => { t with output := f t x }) t).prerouting =
        t.prerouting := by
  induction xs generalizing t with
  | nil => simp
  | cons x xs ih =>
    rw [List.foldl_cons]
    exact ih _

/-- Function `addOutputRules` leaves the user-defined chains and `PREROUTING` as they
were. -/
theorem addOutputRules_frame (cfg : config.Config) (dnsServers : List String)
    (nat : table.NatTable) :
    (addOutputRules cfg dnsServers nat).chains = nat.chains ∧
    (addOutputRules cfg dnsServers nat).prerouting = nat.prerouting := by
  unfold addOutputRules
  simp only
  split
  · split
    · exact ⟨rfl, rfl⟩
    · exact foldl_output_frame _ _ _
  · exact ⟨rfl, rfl⟩

/-- Where an element read by index sits in `pre ++ x :: post`. -/
theorem getElem?_append_cons_cases {α : Type} (pre post : List α) (x r : α) (j : Nat)
    (h : (pre ++ x :: post)[j]? = some r) :
    (j < pre.length ∧ r ∈ pre) ∨ (j = pre.length ∧ r = x) ∨ (pre.length < j ∧ r ∈ post) := by
  rcases Nat.lt_trichotomy j pre.length with hlt | heq | hgt
  · rw [List.getElem?_append_left hlt] at h
    exact Or.inl ⟨hlt, List.getElem?_mem h⟩
  · subst heq
    rw [List.getElem?_append_right (Nat.le_refl _), Nat.sub_self, List.getElem?_cons_zero] at h
    exact Or.inr (Or.inl ⟨rfl, (Option.some.inj h).symm⟩)
  · rw [List.getElem?_append_right (Nat.le_of_lt hgt)] at h
    obtain ⟨k, hk⟩ : ∃ k, j - pre.length = k + 1 := ⟨j - pre.length - 1, by omega⟩
    rw [hk, List.getElem?_cons_succ] at h
    exact Or.inr (Or.inr ⟨hgt, List.getElem?_mem h⟩)

/-- The element right after `pre` in `pre ++ x :: post` is `x`. -/
theorem getElem?_append_cons_length {α : Type} (pre post : List α) (x : α) :
    (pre ++ x :: post)[pre.length]? = some x := by
  rw [List.getElem?_append_right (Nat.le_refl _), Nat.sub_self, List.getElem?_cons_zero]

/-- Every exclude rule of `MESH_OUTBOUND` is `-p tcp --dport p -j RETURN` for an
exclude port `p`, and there is none unless the include list is empty. -/
theorem mem_outboundExcludes (cfg : config.Config) (r : Rule)
    (h : r ∈ spec.outboundExcludes cfg) :
    cfg.Redirect.Outbound.IncludePorts = [] ∧
      ∃ p ∈ cfg.Redirect.Outbound.ExcludePorts, r = spec.portReturn p := by
  unfold spec.outboundExcludes at h
  split at h
  · next hnil =>
    obtain ⟨p, hp, rfl⟩ := List.mem_map.1 h
    exact ⟨hnil, p, hp, rfl⟩
  · simp at h

/-- Every DNS rule of `MESH_OUTBOUND` redirects TCP port 53 to the DNS port. -/
theorem mem_outboundDNS (cfg : config.Config) (dnsServers : List String) (r : Rule)
    (h : r ∈ spec.outboundDNS cfg dnsServers) :
    r = spec.dnsTcpAll cfg.Redirect.DNS.Port ∨
      ∃ d ∈ dnsServers, r = spec.dnsTcpTo d cfg.Redirect.DNS.Port := by
  unfold spec.outboundDNS at h
  split at h
  · split at h
    · exact Or.inl (List.mem_singleton.1 h)
    · obtain ⟨d, hd, rfl⟩ := List.mem_map.1 h
      exact Or.inr ⟨d, hd, rfl⟩
  · simp at h

/-- Every final-dispatch rule of `MESH_OUTBOUND` jumps to the outbound redirect
chain. -/
theorem mem_outboundDispatch (cfg : config.Config) (r : Rule)
    (h : r ∈ spec.outboundDispatch cfg) :
    r = spec.bareJump (cfg.Redirect.Outbound.RedirectChain.GetFullName cfg.Redirect.NamePrefix) ∨
      ∃ p ∈ cfg.Redirect.Outbound.IncludePorts,
        r = spec.portJump p
          (cfg.Redirect.Outbound.RedirectChain.GetFullName cfg.Redirect.NamePrefix) := by
  unfold spec.outboundDispatch at h
  split at h
  · exact Or.inl (List.mem_singleton.1 h)
  · obtain ⟨p, hp, rfl⟩ := List.mem_map.1 h
    exact Or.inr ⟨p, hp, rfl⟩

/-- Dropping a prefix whose elements all satisfy `p` stops at the first element
that does not. -/
theorem dropWhile_append_cons {α : Type} (p : α → Bool) (pre post : List α) (x : α)
    (hpre : ∀ r ∈ pre, p r = true) (hx : p x = false) :
    (pre ++ x :: post).dropWhile p = x :: post := by
  induction pre with
  | nil => simp [List.dropWhile, hx]
  | cons y ys ih =>
    have hy : p y = true := hpre y (List.mem_cons_self y ys)
    simp only [List.cons_append, List.dropWhile, hy]
    exact ih (fun r hr => hpre r (List.mem_cons_of_mem y hr))

/-- No exclude rule of `MESH_OUTBOUND` is a redirect. -/
theorem filter_isRedirect_outboundExcludes (cfg : config.Config) :
    (spec.outboundExcludes cfg).filter spec.isRedirect = [] := by
  rw [List.filter_eq_nil_iff]
  intro r hr
  obtain ⟨-, p, -, rfl⟩ := mem_outboundExcludes cfg r hr
  simp [spec.isRedirect, spec.portReturn]

/-- No final-dispatch rule of `MESH_OUTBOUND` is a redirect. -/
theorem filter_isRedirect_outboundDispatch (cfg : config.Config) :
    (spec.outboundDispatch cfg).filter spec.isRedirect = [] := by
  rw [List.filter_eq_nil_iff]
  intro r hr
  rcases mem_outboundDispatch cfg r hr with rfl | ⟨p, -, rfl⟩ <;>
    simp [spec.isRedirect, spec.bareJump, spec.portJump]

/-- Every DNS rule of `MESH_OUTBOUND` is a redirect. -/
theorem filter_isRedirect_outboundDNS (cfg : config.Config) (dnsServers : List String) :
    (spec.outboundDNS cfg dnsServers).filter spec.isRedirect =
      spec.outboundDNS cfg dnsServers := by
  rw [List.filter_eq_self]
  intro r hr
  rcases mem_outboundDNS cfg dnsServers r hr with rfl | ⟨d, -, rfl⟩ <;>
    simp [spec.isRedirect, spec.dnsTcpAll, spec.dnsTcpTo]

/-- The redirect rules of the enabled `MESH_OUTBOUND` chain are its DNS rules. -/
theorem buildMeshOutbound_filter_isRedirect (cfg : config.Config)
    (dnsServers : List String) (loopback : String) (ipv6 : Bool)
    (hen : cfg.Redirect.Outbound.Enabled = true) :
    (buildMeshOutbound cfg dnsServers loopback ipv6).rules.filter spec.isRedirect =
      spec.outboundDNS cfg dnsServers := by
  rw [buildMeshOutbound_rules cfg dnsServers loopback ipv6 hen]
  simp only [List.filter_append, List.filter_cons, filter_isRedirect_outboundExcludes,
    filter_isRedirect_outboundDispatch, filter_isRedirect_outboundDNS]
  simp [spec.isRedirect, spec.hairpin, spec.loopbackToInbound, spec.loopbackReturn,
    spec.uidReturn, spec.localhostReturn]

/-- A loop that appends one rule to `OUTPUT` per element appends the mapped list. -/
theorem foldl_output_Append {α : Type} (f : α → List Parameter) (g : α → JumpParameter)
    (xs : List α) (t : table.NatTable) :
    xs.foldl (fun (t : table.NatTable) (x : α) =>
        { t with output := (t.output.Append (f x) (g x)) }) t =
      { t with output := { t.output with
          rules := t.output.rules ++ xs.map (fun x => { predicates := f x, jump := g x }) } } := by
  induction xs generalizing t with
  | nil => simp
  | cons x xs ih =>
    rw [List.foldl_cons, ih]
    simp [Chain.Append]

/-- The `OUTPUT` chain after `addOutputRules`: the DNS rules, then the jump to the
outbound chain, appended to what was there. -/
theorem addOutputRules_output (cfg : config.Config) (dnsServers : List String)
    (nat : table.NatTable) :
    (addOutputRules cfg dnsServers nat).output =
      { nat.output with rules := nat.output.rules ++
          (spec.outputDNS cfg dnsServers ++
            [spec.tcpJump (cfg.Redirect.Outbound.Chain.GetFullName cfg.Redirect.NamePrefix)]) } := by
  simp only [addOutputRules, foldl_output_Append]
  cases hd : cfg.Redirect.DNS.Enabled <;> cases hc : cfg.Redirect.DNS.CaptureAll <;>
    simp [hd, hc, Chain.Append, Jump, Tcp, Udp, DestinationPort, consts.DNSPort,
      config.Config.ShouldRedirectDNS, config.Config.ShouldCaptureAllDNS, spec.outputDNS,
      spec.tcpJump, spec.uidUdpReturn, spec.dnsUdpAll, spec.dnsUdpTo]

/-- The chain `buildMeshInbound` returns, written out. -/
theorem buildMeshInbound_chain (cfg : config.TrafficFlow) (pfx R : String) :
    buildMeshInbound cfg pfx R =
      { name := pfx ++ cfg.Chain.Name, rules := spec.inboundRules cfg R } := by
  simp only [buildMeshInbound, foldl_Append_rules]
  cases hen : cfg.Enabled <;> cases hi : cfg.IncludePorts <;>
    simp [hen, hi, Chain.Append, NewChain, Jump, Tcp, DestinationPort,
      config.Chain.GetFullName, spec.inboundRules, spec.tcpReturn, spec.portReturn,
      spec.tcpJump, spec.portJump]

/-- The chain `buildMeshOutbound` returns is named by the outbound chain. -/
theorem buildMeshOutbound_name (cfg : config.Config) (dnsServers : List String)
    (loopback : String) (ipv6 : Bool) :
    (buildMeshOutbound cfg dnsServers loopback ipv6).name =
      cfg.Redirect.NamePrefix ++ cfg.Redirect.Outbound.Chain.Name := by
  simp only [buildMeshOutbound, foldl_Append_rules]
  cases h1 : cfg.Redirect.Outbound.Enabled <;> cases h2 : cfg.Redirect.Outbound.IncludePorts <;>
    cases h3 : cfg.Redirect.DNS.Enabled <;> cases h4 : cfg.Redirect.DNS.CaptureAll <;>
    simp [h1, h2, h3, h4, Chain.Append, NewChain, config.Chain.GetFullName,
      config.Config.ShouldRedirectDNS, config.Config.ShouldCaptureAllDNS]

/-- The chain `buildMeshOutbound` returns, written out. -/
theorem buildMeshOutbound_chain (cfg : config.Config) (dnsServers : List String)
    (loopback : String) (ipv6 : Bool) :
    buildMeshOutbound cfg dnsServers loopback ipv6 =
      { name := cfg.Redirect.NamePrefix ++ cfg.Redirect.Outbound.Chain.Name,
        rules := spec.outboundRules cfg dnsServers loopback ipv6 } := by
  have hname := buildMeshOutbound_name cfg dnsServers loopback ipv6
  have hrules : (buildMeshOutbound cfg dnsServers loopback ipv6).rules =
      spec.outboundRules cfg dnsServers loopback ipv6 := by
    cases hen : cfg.Redirect.Outbound.Enabled
    · simp [buildMeshOutbound, hen, spec.outboundRules, Chain.Append, NewChain, Jump, Tcp,
        spec.tcpReturn]
    · rw [buildMeshOutbound_rules cfg dnsServers loopback ipv6 hen]
      simp [spec.outboundRules, hen]
  cases h : buildMeshOutbound cfg dnsServers loopback ipv6 with
  | mk n rs =>
    rw [h] at hname hrules
    simp only at hname hrules
    rw [hname, hrules]

/-- The chain `buildMeshRedirect` returns, written out. -/
theorem buildMeshRedirect_eq (flow : config.TrafficFlow) (pfx : String) (ipv6 : Bool) :
    buildMeshRedirect flow pfx ipv6 =
      { name := pfx ++ flow.RedirectChain.Name,
        rules := [spec.tcpRedirect (spec.redirectPort flow ipv6)] } := by
  simp [buildMeshRedirect, Chain.Append, NewChain, Jump, Tcp, config.Chain.GetFullName,
    spec.tcpRedirect, spec.redirectPort]

/-- The table `buildNatTable` returns, written out chain by chain. -/
theorem buildNatTable_eq (cfg : config.Config) (dnsServers : List String)
    (loopback : String) (ipv6 : Bool) :
    buildNatTable cfg dnsServers loopback ipv6 =
      { prerouting :=
          { name := "PREROUTING",
            rules := [spec.tcpJump (cfg.Redirect.NamePrefix ++ cfg.Redirect.Inbound.Chain.Name)] },
        output :=
          { name := "OUTPUT",
            rules := spec.outputDNS cfg dnsServers ++
              [spec.tcpJump (cfg.Redirect.NamePrefix ++ cfg.Redirect.Outbound.Chain.Name)] },
        chains :=
          [{ name := cfg.Redirect.NamePrefix ++ cfg.Redirect.Inbound.Chain.Name,
             rules := spec.inboundRules cfg.Redirect.Inbound
               (cfg.Redirect.NamePrefix ++ cfg.Redirect.Inbound.RedirectChain.Name) },
           { name := cfg.Redirect.NamePrefix ++ cfg.Redirect.Outbound.Chain.Name,
             rules := spec.outboundRules cfg dnsServers loopback ipv6 },
           { name := cfg.Redirect.NamePrefix ++ cfg.Redirect.Inbound.RedirectChain.Name,
             rules := [spec.tcpRedirect (spec.redirectPort cfg.Redirect.Inbound ipv6)] },
           { name := cfg.Redirect.NamePrefix ++ cfg.Redirect.Outbound.RedirectChain.Name,
             rules := [spec.tcpRedirect (spec.redirectPort cfg.Redirect.Outbound ipv6)] }] } := by
  have hframe := addOutputRules_frame cfg dnsServers
    { table.NewNat with prerouting := (table.NewNat.prerouting.Append
        [Parameter.Protocol (Tcp [])]
        (Jump (JumpParameter.ToUserDefinedChain
          (cfg.Redirect.Inbound.Chain.GetFullName cfg.Redirect.NamePrefix)))) }
  have hout := addOutputRules_output cfg dnsServers
    { table.NewNat with prerouting := (table.NewNat.prerouting.Append
        [Parameter.Protocol (Tcp [])]
        (Jump (JumpParameter.ToUserDefinedChain
          (cfg.Redirect.Inbound.Chain.GetFullName cfg.Redirect.NamePrefix)))) }
  simp only [buildNatTable, table.NatTable.WithChain, hframe.1, hframe.2, hout,
    buildMeshInbound_chain, buildMeshOutbound_chain, buildMeshRedirect_eq]
  simp [table.NewNat, NewChain, Chain.Append, Jump, Tcp, config.Chain.GetFullName,
    spec.tcpJump]


/-- The shapes of the rules of `MESH_INBOUND`. -/
theorem mem_inboundRules (cfg : config.TrafficFlow) (R : String) (r : Rule)
    (h : r ∈ spec.inboundRules cfg R) :
    r = spec.tcpReturn ∨ (∃ p ∈ cfg.ExcludePorts, r = spec.portReturn p) ∨
      r = spec.tcpJump R ∨ (∃ p ∈ cfg.IncludePorts, r = spec.portJump p R) := by
  unfold spec.inboundRules at h
  split at h
  · split at h
    · rcases List.mem_append.1 h with h1 | h2
      · obtain ⟨p, hp, rfl⟩ := List.mem_map.1 h1
        exact Or.inr (Or.inl ⟨p, hp, rfl⟩)
      · exact Or.inr (Or.inr (Or.inl (List.mem_singleton.1 h2)))
    · obtain ⟨p, hp, rfl⟩ := List.mem_map.1 h
      exact Or.inr (Or.inr (Or.inr ⟨p, hp, rfl⟩))
  · exact Or.inl (List.mem_singleton.1 h)

/-- The shapes of the rules of `MESH_OUTBOUND`. -/
theorem mem_outboundRules (cfg : config.Config) (dnsServers : List String)
    (loopback : String) (ipv6 : Bool) (r : Rule)
    (h : r ∈ spec.outboundRules cfg dnsServers loopback ipv6) :
    r = spec.tcpReturn ∨
    (∃ p ∈ cfg.Redirect.Outbound.ExcludePorts, r = spec.portReturn p) ∨
    r = spec.hairpin (spec.passthroughCIDR ipv6) loopback ∨
    r = spec.loopbackToInbound cfg.Redirect.DNS.Enabled loopback (spec.localhostCIDR ipv6)
          cfg.Owner.UID (cfg.Redirect.Inbound.RedirectChain.GetFullName cfg.Redirect.NamePrefix) ∨
    r = spec.loopbackReturn cfg.Redirect.DNS.Enabled loopback cfg.Owner.UID ∨
    r = spec.uidReturn cfg.Owner.UID ∨
    (cfg.Redirect.DNS.Enabled = true ∧
      (r = spec.dnsTcpAll cfg.Redirect.DNS.Port ∨
        ∃ d ∈ dnsServers, r = spec.dnsTcpTo d cfg.Redirect.DNS.Port)) ∨
    r = spec.localhostReturn (spec.localhostCIDR ipv6) ∨
    r = spec.bareJump (cfg.Redirect.Outbound.RedirectChain.GetFullName cfg.Redirect.NamePrefix) ∨
    (∃ p ∈ cfg.Redirect.Outbound.IncludePorts,
      r = spec.portJump p
        (cfg.Redirect.Outbound.RedirectChain.GetFullName cfg.Redirect.NamePrefix)) := by
  unfold spec.outboundRules at h
  split at h
  · simp only [List.mem_append, List.mem_cons] at h
    rcases h with he | rfl | rfl | rfl | rfl | hd | rfl | hdisp
    · obtain ⟨-, p, hp, rfl⟩ := mem_outboundExcludes cfg r he
      exact Or.inr (Or.inl ⟨p, hp, rfl⟩)
    · simp
    · simp
    · simp
    · simp
    · have hen : cfg.Redirect.DNS.Enabled = true := by
        by_contra hne
        simp [spec.outboundDNS, hne] at hd
      exact Or.inr (Or.inr (Or.inr (Or.inr (Or.inr (Or.inr (Or.inl
        ⟨hen, mem_outboundDNS cfg dnsServers r hd⟩))))))
    · simp
    · rcases mem_outboundDispatch cfg r hdisp with rfl | ⟨p, hp, rfl⟩
      · simp
      · exact Or.inr (Or.inr (Or.inr (Or.inr (Or.inr (Or.inr (Or.inr (Or.inr
          (Or.inr ⟨p, hp, rfl⟩))))))))
  · exact Or.inl (List.mem_singleton.1 h)

/-- The shapes of the DNS rules of `OUTPUT`; there are none unless DNS is redirected. -/
theorem mem_outputDNS (cfg : config.Config) (dnsServers : List String) (r : Rule)
    (h : r ∈ spec.outputDNS cfg dnsServers) :
    cfg.Redirect.DNS.Enabled = true ∧
      (r = spec.uidUdpReturn cfg.Owner.UID ∨ r = spec.dnsUdpAll cfg.Redirect.DNS.Port ∨
        ∃ d ∈ dnsServers, r = spec.dnsUdpTo d cfg.Redirect.DNS.Port) := by
  unfold spec.outputDNS at h
  split at h
  · next hen =>
    refine ⟨hen, ?_⟩
    rcases List.mem_cons.1 h with rfl | h
    · exact Or.inl rfl
    · split at h
      · exact Or.inr (Or.inl (List.mem_singleton.1 h))
      · obtain ⟨d, hd, rfl⟩ := List.mem_map.1 h
        exact Or.inr (Or.inr ⟨d, hd, rfl⟩)
  · simp at h

/-- Prepending the same text to two strings keeps them apart. -/
theorem string_append_left_cancel (s a b : String) (h : s ++ a = s ++ b) : a = b := by
  have hd := congrArg String.data h
  simp only [String.data_append] at hd
  exact String.ext (List.append_cancel_left hd)

/-- The substitution leaves the rules of `MESH_INBOUND` as they are. -/
theorem map_ipv6Rule_inboundRules (flow : config.TrafficFlow) (R : String) :
    (spec.inboundRules flow R).map spec.ipv6Rule = spec.inboundRules flow R := by
  rw [List.map_congr_left, List.map_id]
  intro r hr
  rcases mem_inboundRules flow R r hr with rfl | ⟨p, -, rfl⟩ | rfl | ⟨p, -, rfl⟩ <;>
    simp [spec.ipv6Rule, spec.ipv6Predicate, spec.tcpReturn, spec.portReturn, spec.tcpJump,
      spec.portJump]

/-- The substitution leaves the rules of `OUTPUT` as they are. -/
theorem map_ipv6Rule_outputDNS (cfg : config.Config) (dnsServers : List String) :
    (spec.outputDNS cfg dnsServers).map spec.ipv6Rule = spec.outputDNS cfg dnsServers := by
  rw [List.map_congr_left, List.map_id]
  intro r hr
  obtain ⟨-, rfl | rfl | ⟨d, -, rfl⟩⟩ := mem_outputDNS cfg dnsServers r hr <;>
    simp [spec.ipv6Rule, spec.ipv6Predicate, spec.uidUdpReturn, spec.dnsUdpAll, spec.dnsUdpTo]

/-- The substitution leaves the exclude rules of `MESH_OUTBOUND` as they are. -/
theorem map_ipv6Rule_outboundExcludes (cfg : config.Config) :
    (spec.outboundExcludes cfg).map spec.ipv6Rule = spec.outboundExcludes cfg := by
  rw [List.map_congr_left, List.map_id]
  intro r hr
  obtain ⟨-, p, -, rfl⟩ := mem_outboundExcludes cfg r hr
  simp [spec.ipv6Rule, spec.ipv6Predicate, spec.portReturn]

/-- The substitution leaves the DNS rules of `MESH_OUTBOUND` as they are. -/
theorem map_ipv6Rule_outboundDNS (cfg : config.Config) (dnsServers : List String) :
    (spec.outboundDNS cfg dnsServers).map spec.ipv6Rule = spec.outboundDNS cfg dnsServers := by
  rw [List.map_congr_left, List.map_id]
  intro r hr
  rcases mem_outboundDNS cfg dnsServers r hr with rfl | ⟨d, -, rfl⟩ <;>
    simp [spec.ipv6Rule, spec.ipv6Predicate, spec.dnsTcpAll, spec.dnsTcpTo]

/-- The substitution leaves the final dispatch of `MESH_OUTBOUND` as it is. -/
theorem map_ipv6Rule_outboundDispatch (cfg : config.Config) :
    (spec.outboundDispatch cfg).map spec.ipv6Rule = spec.outboundDispatch cfg := by
  rw [List.map_congr_left, List.map_id]
  intro r hr
  rcases mem_outboundDispatch cfg r hr with rfl | ⟨p, -, rfl⟩ <;>
    simp [spec.ipv6Rule, spec.ipv6Predicate, spec.bareJump, spec.portJump]

/-- The substitution turns the IPv4 rules of `MESH_OUTBOUND` into the IPv6 rules. -/
theorem map_ipv6Rule_outboundRules (cfg : config.Config) (dnsServers : List String)
    (loopback : String) :
    (spec.outboundRules cfg dnsServers loopback false).map spec.ipv6Rule =
      spec.outboundRules cfg dnsServers loopback true := by
  unfold spec.outboundRules
  split
  · simp only [List.map_append, List.map_cons, map_ipv6Rule_outboundExcludes,
      map_ipv6Rule_outboundDNS, map_ipv6Rule_outboundDispatch]
    simp [spec.ipv6Rule, spec.ipv6Predicate, spec.hairpin, spec.loopbackToInbound,
      spec.loopbackReturn, spec.uidReturn, spec.localhostReturn, spec.loopbackTcp,
      spec.passthroughCIDR, spec.localhostCIDR]
  · simp [spec.ipv6Rule, spec.ipv6Predicate, spec.tcpReturn]

/-- The substitution turns the IPv4 rule of a redirect chain into the IPv6 rule. -/
theorem ipv6Redirect_tcpRedirect (flow : config.TrafficFlow) :
    spec.ipv6Redirect flow (spec.tcpRedirect (spec.redirectPort flow false)) =
      spec.tcpRedirect (spec.redirectPort flow true) := by
  simp [spec.ipv6Redirect, spec.tcpRedirect, spec.redirectPort]

/-- The `// .Owner` statement, as one record. -/
theorem mergeOwner_eq (cfg r : config.Config) :
    config.mergeOwner cfg r =
      { r with Owner :=
          { UID := if cfg.Owner.UID != "" then cfg.Owner.UID else r.Owner.UID } } := by
  unfold config.mergeOwner
  split <;> rfl

/-- The `// .Redirect` statement, as one record. -/
theorem mergeRedirect_eq (cfg r : config.Config) :
    config.mergeRedirect cfg r =
      { r with Redirect := { r.Redirect with
          NamePrefix := if cfg.Redirect.NamePrefix != "" then cfg.Redirect.NamePrefix
            else r.Redirect.NamePrefix } } := by
  unfold config.mergeRedirect
  split <;> rfl

/-- The `// .Redirect.Inbound` statements, as one record. -/
theorem mergeInbound_eq (cfg r : config.Config) :
    config.mergeInbound cfg r =
      { r with Redirect := { r.Redirect with Inbound :=
        { Enabled := cfg.Redirect.Inbound.Enabled
          Port := if cfg.Redirect.Inbound.Port != 0 then cfg.Redirect.Inbound.Port
            else r.Redirect.Inbound.Port
          PortIPv6 := if cfg.Redirect.Inbound.PortIPv6 != 0 then cfg.Redirect.Inbound.PortIPv6
            else r.Redirect.Inbound.PortIPv6
          Chain := { Name := if cfg.Redirect.Inbound.Chain.Name != ""
            then cfg.Redirect.Inbound.Chain.Name else r.Redirect.Inbound.Chain.Name }
          RedirectChain := { Name := if cfg.Redirect.Inbound.RedirectChain.Name != ""
            then cfg.Redirect.Inbound.RedirectChain.Name
            else r.Redirect.Inbound.RedirectChain.Name }
          ExcludePorts := if cfg.Redirect.Inbound.ExcludePorts.length > 0
            then cfg.Redirect.Inbound.ExcludePorts else r.Redirect.Inbound.ExcludePorts
          IncludePorts := if cfg.Redirect.Inbound.IncludePorts.length > 0
            then cfg.Redirect.Inbound.IncludePorts
            else r.Redirect.Inbound.IncludePorts } } } := by
  unfold config.mergeInbound
  simp only
  split_ifs <;> rfl

/-- The `// .Redirect.Outbound` statements, as one record: `PortIPv6` is not
assigned. -/
theorem mergeOutbound_eq (cfg r : config.Config) :
    config.mergeOutbound cfg r =
      { r with Redirect := { r.Redirect with Outbound :=
        { Enabled := cfg.Redirect.Outbound.Enabled
          Port := if cfg.Redirect.Outbound.Port != 0 then cfg.Redirect.Outbound.Port
            else r.Redirect.Outbound.Port
          PortIPv6 := r.Redirect.Outbound.PortIPv6
          Chain := { Name := if cfg.Redirect.Outbound.Chain.Name != ""
            then cfg.Redirect.Outbound.Chain.Name else r.Redirect.Outbound.Chain.Name }
          RedirectChain := { Name := if cfg.Redirect.Outbound.RedirectChain.Name != ""
            then cfg.Redirect.Outbound.RedirectChain.Name
            else r.Redirect.Outbound.RedirectChain.Name }
          ExcludePorts := if cfg.Redirect.Outbound.ExcludePorts.length > 0
            then cfg.Redirect.Outbound.ExcludePorts else r.Redirect.Outbound.ExcludePorts
          IncludePorts := if cfg.Redirect.Outbound.IncludePorts.length > 0
            then cfg.Redirect.Outbound.IncludePorts
            else r.Redirect.Outbound.IncludePorts } } } := by
  unfold config.mergeOutbound
  simp only
  split_ifs <;> rfl

/-- The `// .Redirect.DNS` statements, as one record. -/
theorem mergeDNS_eq (cfg r : config.Config) :
    config.mergeDNS cfg r =
      { r with Redirect := { r.Redirect with DNS :=
        { Enabled := cfg.Redirect.DNS.Enabled
          CaptureAll := cfg.Redirect.DNS.CaptureAll
          Port := if cfg.Redirect.DNS.Port != 0 then cfg.Redirect.DNS.Port
            else r.Redirect.DNS.Port
          ConntrackZoneSplit := cfg.Redirect.DNS.ConntrackZoneSplit
          ResolvConfigPath := if cfg.Redirect.DNS.ResolvConfigPath != ""
            then cfg.Redirect.DNS.ResolvConfigPath
            else r.Redirect.DNS.ResolvConfigPath } } } := by
  unfold config.mergeDNS
  simp only
  split_ifs <;> rfl

/-- The `// .Ebpf` statements, as one record. -/
theorem mergeEbpf_eq (cfg r : config.Config) :
    config.mergeEbpf cfg r =
      { r with Ebpf :=
        { Enabled := cfg.Ebpf.Enabled
          InstanceIP := if cfg.Ebpf.InstanceIP != "" then cfg.Ebpf.InstanceIP
            else r.Ebpf.InstanceIP
          BPFFSPath := if cfg.Ebpf.BPFFSPath != "" then cfg.Ebpf.BPFFSPath
            else r.Ebpf.BPFFSPath
          ProgramsSourcePath := if cfg.Ebpf.ProgramsSourcePath != ""
            then cfg.Ebpf.ProgramsSourcePath else r.Ebpf.ProgramsSourcePath } } := by
  unfold config.mergeEbpf
  simp only
  split_ifs <;> rfl

/-- The statements from `// .DropInvalidPackets` to `// .DryRun`, as one record. -/
theorem mergeRuntime_eq (cfg r : config.Config) :
    config.mergeRuntime cfg r =
      { r with
        DropInvalidPackets := cfg.DropInvalidPackets
        IPv6 := cfg.IPv6
        RuntimeStdout := if cfg.RuntimeStdout != none then cfg.RuntimeStdout
          else r.RuntimeStdout
        RuntimeStderr := if cfg.RuntimeStderr != none then cfg.RuntimeStderr
          else r.RuntimeStderr
        Verbose := cfg.Verbose
        DryRun := cfg.DryRun } := by
  unfold config.mergeRuntime
  simp only
  split_ifs <;> rfl

/-- The merged configuration, field by field: a text, port, port list or writer of
the input where it is set and the default otherwise, every boolean of the input as
it is, and the outbound IPv6 port of the defaults. -/
theorem MergeConfigWithDefaults_eq (cfg : config.Config) :
    config.MergeConfigWithDefaults cfg =
      { Owner := { UID := if cfg.Owner.UID != "" then cfg.Owner.UID else "5678" }
        Redirect :=
          { NamePrefix := if cfg.Redirect.NamePrefix != "" then cfg.Redirect.NamePrefix else ""
            Inbound :=
              { Enabled := cfg.Redirect.Inbound.Enabled
                Port := if cfg.Redirect.Inbound.Port != 0 then cfg.Redirect.Inbound.Port
                  else 15006
                PortIPv6 := if cfg.Redirect.Inbound.PortIPv6 != 0
                  then cfg.Redirect.Inbound.PortIPv6 else 15010
                Chain := { Name := if cfg.Redirect.Inbound.Chain.Name != ""
                  then cfg.Redirect.Inbound.Chain.Name else "MESH_INBOUND" }
                RedirectChain := { Name := if cfg.Redirect.Inbound.RedirectChain.Name != ""
                  then cfg.Redirect.Inbound.RedirectChain.Name else "MESH_INBOUND_REDIRECT" }
                ExcludePorts := if cfg.Redirect.Inbound.ExcludePorts.length > 0
                  then cfg.Redirect.Inbound.ExcludePorts else []
                IncludePorts := if cfg.Redirect.Inbound.IncludePorts.length > 0
                  then cfg.Redirect.Inbound.IncludePorts else [] }
            Outbound :=
              { Enabled := cfg.Redirect.Outbound.Enabled
                Port := if cfg.Redirect.Outbound.Port != 0 then cfg.Redirect.Outbound.Port
                  else 15001
                PortIPv6 := 0
                Chain := { Name := if cfg.Redirect.Outbound.Chain.Name != ""
                  then cfg.Redirect.Outbound.Chain.Name else "MESH_OUTBOUND" }
                RedirectChain := { Name := if cfg.Redirect.Outbound.RedirectChain.Name != ""
                  then cfg.Redirect.Outbound.RedirectChain.Name else "MESH_OUTBOUND_REDIRECT" }
                ExcludePorts := if cfg.Redirect.Outbound.ExcludePorts.length > 0
                  then cfg.Redirect.Outbound.ExcludePorts else []
                IncludePorts := if cfg.Redirect.Outbound.IncludePorts.length > 0
                  then cfg.Redirect.Outbound.IncludePorts else [] }
            DNS :=
              { Enabled := cfg.Redirect.DNS.Enabled
                CaptureAll := cfg.Redirect.DNS.CaptureAll
                Port := if cfg.Redirect.DNS.Port != 0 then cfg.Redirect.DNS.Port else 15053
                ConntrackZoneSplit := cfg.Redirect.DNS.ConntrackZoneSplit
                ResolvConfigPath := if cfg.Redirect.DNS.ResolvConfigPath != ""
                  then cfg.Redirect.DNS.ResolvConfigPath else "/etc/resolv.conf" } }
        Ebpf :=
          { Enabled := cfg.Ebpf.Enabled
            InstanceIP := if cfg.Ebpf.InstanceIP != "" then cfg.Ebpf.InstanceIP else ""
            BPFFSPath := if cfg.Ebpf.BPFFSPath != "" then cfg.Ebpf.BPFFSPath
              else "/run/kuma/bpf"
            ProgramsSourcePath := if cfg.Ebpf.ProgramsSourcePath != ""
              then cfg.Ebpf.ProgramsSourcePath else "/kuma/ebpf" }
        DropInvalidPackets := cfg.DropInvalidPackets
        IPv6 := cfg.IPv6
        RuntimeStdout := if cfg.RuntimeStdout != none then cfg.RuntimeStdout else some 1
        RuntimeStderr := if cfg.RuntimeStderr != none then cfg.RuntimeStderr else some 2
        Verbose := cfg.Verbose
        DryRun := cfg.DryRun } := by
  simp only [config.MergeConfigWithDefaults, mergeOwner_eq, mergeRedirect_eq, mergeInbound_eq,
    mergeOutbound_eq, mergeDNS_eq, mergeEbpf_eq, mergeRuntime_eq]
  rfl

/-- Choosing between a value and a default by a test, and then again on the outcome,
is choosing once. -/
theorem ite_ite_idem {α : Type} (p : α → Prop) [DecidablePred p] (c d : α) :
    (if p (if p c then c else d) then (if p c then c else d) else d) =
      if p c then c else d := by
  by_cases h : p c <;> simp [h]

/-- Merging twice is merging once. -/
theorem MergeConfigWithDefaults_idem (cfg : config.Config) :
    config.MergeConfigWithDefaults (config.MergeConfigWithDefaults cfg) =
      config.MergeConfigWithDefaults cfg := by
  rw [MergeConfigWithDefaults_eq (config.MergeConfigWithDefaults cfg),
    MergeConfigWithDefaults_eq cfg]
  simp only [ite_ite_idem (fun s : String => (s != "") = true),
    ite_ite_idem (fun n : Nat => (n != 0) = true),
    ite_ite_idem (fun l : List Nat => l.length > 0),
    ite_ite_idem (fun w : Option Nat => (w != none) = true)]

end Lemmas

/-! ## `MESH_OUTBOUND` -/

section Outbound

open parameters chain builder

/-- C1, as stated, fails: when the inbound and the outbound redirect chain carry the
same name, the loopback rule that jumps to the inbound redirect chain is a jump to
the outbound redirect chain and precedes the sidecar exemption. -/
theorem buildMeshOutbound_uid_exemption_not_always_placed :
    spec.sharedRedirectConfig.Redirect.Outbound.Enabled = true ∧
    ¬ spec.UidExemptionPlaced
        (buildMeshOutbound spec.sharedRedirectConfig [] "lo" false).rules
        spec.sharedRedirectConfig.Owner.UID "lo"
        (spec.sharedRedirectConfig.Redirect.Outbound.RedirectChain.GetFullName
          spec.sharedRedirectConfig.Redirect.NamePrefix) := by
  refine ⟨rfl, ?_⟩
  rintro ⟨i, hi, -, hj⟩
  have h1 : i < 1 := hj 1 _ rfl rfl
  have h0 : i = 0 := by omega
  subst h0
  revert hi
  decide

/-- C1 (amended): for every config with outbound redirection enabled whose inbound
and outbound redirect chains have different full names, the `MESH_OUTBOUND` chain
holds the rule `-m owner --uid-owner U -j RETURN` after every rule that matches on
the loopback output interface and before every rule that jumps to the outbound
redirect chain. -/
theorem buildMeshOutbound_uid_exemption_placed (cfg : config.Config)
    (dnsServers : List String) (loopback : String) (ipv6 : Bool)
    (hen : cfg.Redirect.Outbound.Enabled = true)
    (hne : cfg.Redirect.Inbound.RedirectChain.GetFullName cfg.Redirect.NamePrefix ≠
      cfg.Redirect.Outbound.RedirectChain.GetFullName cfg.Redirect.NamePrefix) :
    spec.UidExemptionPlaced (buildMeshOutbound cfg dnsServers loopback ipv6).rules
      cfg.Owner.UID loopback
      (cfg.Redirect.Outbound.RedirectChain.GetFullName cfg.Redirect.NamePrefix) := by
  rw [buildMeshOutbound_rules cfg dnsServers loopback ipv6 hen]
  generalize hIR : cfg.Redirect.Inbound.RedirectChain.GetFullName cfg.Redirect.NamePrefix = IR at *
  generalize hOR : cfg.Redirect.Outbound.RedirectChain.GetFullName cfg.Redirect.NamePrefix = OR at *
  set E := spec.outboundExcludes cfg with hE
  set a := spec.hairpin (spec.passthroughCIDR ipv6) loopback with ha
  set b := spec.loopbackToInbound cfg.Redirect.DNS.Enabled loopback (spec.localhostCIDR ipv6)
    cfg.Owner.UID IR with hb
  set c := spec.loopbackReturn cfg.Redirect.DNS.Enabled loopback cfg.Owner.UID with hc
  set post := spec.outboundDNS cfg dnsServers ++
    (spec.localhostReturn (spec.localhostCIDR ipv6) :: spec.outboundDispatch cfg) with hpost
  have hsplit : E ++ (a :: b :: c :: spec.uidReturn cfg.Owner.UID :: post) =
      (E ++ [a, b, c]) ++ spec.uidReturn cfg.Owner.UID :: post := by simp
  rw [hsplit]
  have hpostmem : ∀ r ∈ post, (∀ x ∈ r.predicates, x ≠ Parameter.OutInterface loopback) := by
    intro r hr
    rcases List.mem_append.1 hr with hd | hl
    · rcases mem_outboundDNS cfg dnsServers r hd with rfl | ⟨d, -, rfl⟩ <;>
        simp [spec.dnsTcpAll, spec.dnsTcpTo]
    · rcases List.mem_cons.1 hl with rfl | hdisp
      · simp [spec.localhostReturn]
      · rcases mem_outboundDispatch cfg r hdisp with rfl | ⟨p, -, rfl⟩ <;>
          simp [spec.bareJump, spec.portJump]
  refine ⟨(E ++ [a, b, c]).length, getElem?_append_cons_length _ _ _, ?_, ?_⟩
  · intro j r hj hmem
    rcases getElem?_append_cons_cases _ _ _ _ _ hj with ⟨hlt, -⟩ | ⟨-, rfl⟩ | ⟨-, hr⟩
    · exact hlt
    · simp [spec.uidReturn] at hmem
    · exact absurd rfl (hpostmem r hr _ hmem)
  · intro j r hj hjump
    rcases getElem?_append_cons_cases _ _ _ _ _ hj with ⟨-, hr⟩ | ⟨-, rfl⟩ | ⟨hgt, -⟩
    · rcases List.mem_append.1 hr with he | habc
      · obtain ⟨-, p, -, rfl⟩ := mem_outboundExcludes cfg r he
        simp [spec.portReturn] at hjump
      · simp only [List.mem_cons, List.mem_singleton, List.not_mem_nil, or_false] at habc
        rcases habc with rfl | rfl | rfl
        · simp [ha, spec.hairpin] at hjump
        · simp [hb, spec.loopbackToInbound] at hjump
          exact absurd hjump hne
        · simp [hc, spec.loopbackReturn] at hjump
    · simp [spec.uidReturn] at hjump
    · exact hgt

/-- C1 (amended), at the default configuration with one nameserver. -/
theorem buildMeshOutbound_uid_exemption_placed_witness :
    config.defaultConfig.Redirect.Outbound.Enabled = true ∧
    spec.UidExemptionPlaced
      (buildMeshOutbound config.defaultConfig ["8.8.8.8"] "lo" false).rules
      "5678" "lo" "MESH_OUTBOUND_REDIRECT" :=
  ⟨rfl, buildMeshOutbound_uid_exemption_placed config.defaultConfig ["8.8.8.8"] "lo" false
    rfl (by decide)⟩

/-- C2: with outbound and DNS redirection enabled, the redirect rules of
`MESH_OUTBOUND` are exactly the DNS rules: the single rule
`-p tcp --dport 53 -j REDIRECT --to-ports dnsPort` under capture-all, and otherwise
one rule `-d d -p tcp --dport 53 -j REDIRECT --to-ports dnsPort` per nameserver in
list order; they stand directly between the sidecar exemption, which is the fourth
rule after the exclude rules, and `-d LOCALHOST -j RETURN`. -/
theorem buildMeshOutbound_dns_rules (cfg : config.Config) (dnsServers : List String)
    (loopback : String) (ipv6 : Bool)
    (hen : cfg.Redirect.Outbound.Enabled = true)
    (hdns : cfg.Redirect.DNS.Enabled = true) :
    (cfg.Redirect.DNS.CaptureAll = true →
      (buildMeshOutbound cfg dnsServers loopback ipv6).rules.filter spec.isRedirect =
          [spec.dnsTcpAll cfg.Redirect.DNS.Port] ∧
        ∃ pre post : List Rule,
          pre.length = (spec.outboundExcludes cfg).length + 3 ∧
          (buildMeshOutbound cfg dnsServers loopback ipv6).rules =
            pre ++ spec.uidReturn cfg.Owner.UID ::
              ([spec.dnsTcpAll cfg.Redirect.DNS.Port] ++
                spec.localhostReturn (if ipv6 then "::1/128" else "127.0.0.1/32") :: post)) ∧
    (cfg.Redirect.DNS.CaptureAll = false →
      (buildMeshOutbound cfg dnsServers loopback ipv6).rules.filter spec.isRedirect =
          dnsServers.map (fun d => spec.dnsTcpTo d cfg.Redirect.DNS.Port) ∧
        ∃ pre post : List Rule,
          pre.length = (spec.outboundExcludes cfg).length + 3 ∧
          (buildMeshOutbound cfg dnsServers loopback ipv6).rules =
            pre ++ spec.uidReturn cfg.Owner.UID ::
              (dnsServers.map (fun d => spec.dnsTcpTo d cfg.Redirect.DNS.Port) ++
                spec.localhostReturn (if ipv6 then "::1/128" else "127.0.0.1/32") :: post)) := by
  have hrules := buildMeshOutbound_rules cfg dnsServers loopback ipv6 hen
  have hfilter := buildMeshOutbound_filter_isRedirect cfg dnsServers loopback ipv6 hen
  constructor
  · intro hcap
    have hd : spec.outboundDNS cfg dnsServers = [spec.dnsTcpAll cfg.Redirect.DNS.Port] := by
      simp [spec.outboundDNS, hdns, hcap]
    rw [hd] at hrules hfilter
    refine ⟨hfilter, spec.outboundExcludes cfg ++
      [spec.hairpin (spec.passthroughCIDR ipv6) loopback,
        spec.loopbackToInbound cfg.Redirect.DNS.Enabled loopback (spec.localhostCIDR ipv6)
          cfg.Owner.UID (cfg.Redirect.Inbound.RedirectChain.GetFullName cfg.Redirect.NamePrefix),
        spec.loopbackReturn cfg.Redirect.DNS.Enabled loopback cfg.Owner.UID],
      spec.outboundDispatch cfg, by simp, ?_⟩
    rw [hrules]
    simp [spec.localhostCIDR]
  · intro hcap
    have hd : spec.outboundDNS cfg dnsServers =
        dnsServers.map (fun d => spec.dnsTcpTo d cfg.Redirect.DNS.Port) := by
      simp [spec.outboundDNS, hdns, hcap]
    rw [hd] at hrules hfilter
    refine ⟨hfilter, spec.outboundExcludes cfg ++
      [spec.hairpin (spec.passthroughCIDR ipv6) loopback,
        spec.loopbackToInbound cfg.Redirect.DNS.Enabled loopback (spec.localhostCIDR ipv6)
          cfg.Owner.UID (cfg.Redirect.Inbound.RedirectChain.GetFullName cfg.Redirect.NamePrefix),
        spec.loopbackReturn cfg.Redirect.DNS.Enabled loopback cfg.Owner.UID],
      spec.outboundDispatch cfg, by simp, ?_⟩
    rw [hrules]
    simp [spec.localhostCIDR]

/-- C2, at the default configuration with DNS redirection switched on and two
nameservers. -/
theorem buildMeshOutbound_dns_rules_witness :
    (buildMeshOutbound
        { config.defaultConfig with
          Redirect := { config.defaultConfig.Redirect with
            DNS := { config.defaultConfig.Redirect.DNS with Enabled := true, CaptureAll := false } } }
        ["8.8.8.8", "1.1.1.1"] "lo" false).rules.filter spec.isRedirect =
      [spec.dnsTcpTo "8.8.8.8" 15053, spec.dnsTcpTo "1.1.1.1" 15053] :=
  ((buildMeshOutbound_dns_rules
      { config.defaultConfig with
        Redirect := { config.defaultConfig.Redirect with
          DNS := { config.defaultConfig.Redirect.DNS with Enabled := true, CaptureAll := false } } }
      ["8.8.8.8", "1.1.1.1"] "lo" false rfl rfl).2 rfl).1

/-- C3: with outbound redirection enabled, `MESH_OUTBOUND` ends with
`-d LOCALHOST -j RETURN` directly followed by the final dispatch: one rule
`-p tcp --dport p -j OR` per include port in config order when the include list is
non-empty, and the single rule `-j OR` without predicates when it is empty. -/
theorem buildMeshOutbound_final_dispatch (cfg : config.Config) (dnsServers : List String)
    (loopback : String) (ipv6 : Bool)
    (hen : cfg.Redirect.Outbound.Enabled = true) :
    (cfg.Redirect.Outbound.IncludePorts ≠ [] →
      List.IsSuffix
        (spec.localhostReturn (if ipv6 then "::1/128" else "127.0.0.1/32") ::
          cfg.Redirect.Outbound.IncludePorts.map (fun p => spec.portJump p
            (cfg.Redirect.Outbound.RedirectChain.GetFullName cfg.Redirect.NamePrefix)))
        (buildMeshOutbound cfg dnsServers loopback ipv6).rules) ∧
    (cfg.Redirect.Outbound.IncludePorts = [] →
      List.IsSuffix
        [spec.localhostReturn (if ipv6 then "::1/128" else "127.0.0.1/32"),
          spec.bareJump (cfg.Redirect.Outbound.RedirectChain.GetFullName cfg.Redirect.NamePrefix)]
        (buildMeshOutbound cfg dnsServers loopback ipv6).rules) := by
  have hrules := buildMeshOutbound_rules cfg dnsServers loopback ipv6 hen
  constructor
  · intro hincl
    refine ⟨spec.outboundExcludes cfg ++
      ([spec.hairpin (spec.passthroughCIDR ipv6) loopback,
        spec.loopbackToInbound cfg.Redirect.DNS.Enabled loopback (spec.localhostCIDR ipv6)
          cfg.Owner.UID (cfg.Redirect.Inbound.RedirectChain.GetFullName cfg.Redirect.NamePrefix),
        spec.loopbackReturn cfg.Redirect.DNS.Enabled loopback cfg.Owner.UID,
        spec.uidReturn cfg.Owner.UID] ++
        spec.outboundDNS cfg dnsServers), ?_⟩
    rw [hrules]
    simp [spec.outboundDispatch, hincl, spec.localhostCIDR]
  · intro hincl
    refine ⟨spec.outboundExcludes cfg ++
      ([spec.hairpin (spec.passthroughCIDR ipv6) loopback,
        spec.loopbackToInbound cfg.Redirect.DNS.Enabled loopback (spec.localhostCIDR ipv6)
          cfg.Owner.UID (cfg.Redirect.Inbound.RedirectChain.GetFullName cfg.Redirect.NamePrefix),
        spec.loopbackReturn cfg.Redirect.DNS.Enabled loopback cfg.Owner.UID,
        spec.uidReturn cfg.Owner.UID] ++
        spec.outboundDNS cfg dnsServers), ?_⟩
    rw [hrules]
    simp [spec.outboundDispatch, hincl, spec.localhostCIDR]

/-- C3, at the default configuration with include ports 80 and 8080. -/
theorem buildMeshOutbound_final_dispatch_witness :
    List.IsSuffix
      [spec.localhostReturn "127.0.0.1/32", spec.portJump 80 "MESH_OUTBOUND_REDIRECT",
        spec.portJump 8080 "MESH_OUTBOUND_REDIRECT"]
      (buildMeshOutbound
        { config.defaultConfig with
          Redirect := { config.defaultConfig.Redirect with
            Outbound := { config.defaultConfig.Redirect.Outbound with
              IncludePorts := [80, 8080] } } }
        [] "lo" false).rules :=
  (buildMeshOutbound_final_dispatch
    { config.defaultConfig with
      Redirect := { config.defaultConfig.Redirect with
        Outbound := { config.defaultConfig.Redirect.Outbound with
          IncludePorts := [80, 8080] } } }
    [] "lo" false rfl).1 (by decide)

/-- C4: with outbound redirection enabled, the first rule of `MESH_OUTBOUND` that is
not an exclude-port RETURN rule is the hairpin passthrough
`-s PASSTHROUGH_SRC -o loopback -j RETURN`, with source `::6/128` for IPv6 and
`127.0.0.6/32` for IPv4; every `! -d` predicate of the chain and the `-d` predicate
of every RETURN rule carries the localhost CIDR, `::1/128` for IPv6 and
`127.0.0.1/32` for IPv4, and both the `! -d LOCALHOST` loopback rule and the
`-d LOCALHOST -j RETURN` rule are present. -/
theorem buildMeshOutbound_hairpin_and_localhost (cfg : config.Config)
    (dnsServers : List String) (loopback : String) (ipv6 : Bool)
    (hen : cfg.Redirect.Outbound.Enabled = true) :
    ((buildMeshOutbound cfg dnsServers loopback ipv6).rules.dropWhile spec.isPortReturn).head? =
        some (spec.hairpin (if ipv6 then "::6/128" else "127.0.0.6/32") loopback) ∧
    (∀ r ∈ (buildMeshOutbound cfg dnsServers loopback ipv6).rules, ∀ c : String,
      Parameter.NotDestination c ∈ r.predicates →
        c = (if ipv6 then "::1/128" else "127.0.0.1/32")) ∧
    (∀ r ∈ (buildMeshOutbound cfg dnsServers loopback ipv6).rules, ∀ c : String,
      r.jump = JumpParameter.Return → Parameter.Destination c ∈ r.predicates →
        c = (if ipv6 then "::1/128" else "127.0.0.1/32")) ∧
    spec.loopbackToInbound cfg.Redirect.DNS.Enabled loopback
        (if ipv6 then "::1/128" else "127.0.0.1/32") cfg.Owner.UID
        (cfg.Redirect.Inbound.RedirectChain.GetFullName cfg.Redirect.NamePrefix) ∈
      (buildMeshOutbound cfg dnsServers loopback ipv6).rules ∧
    spec.localhostReturn (if ipv6 then "::1/128" else "127.0.0.1/32") ∈
      (buildMeshOutbound cfg dnsServers loopback ipv6).rules := by
  rw [buildMeshOutbound_rules cfg dnsServers loopback ipv6 hen]
  have hmem : ∀ r ∈ spec.outboundExcludes cfg ++
      (spec.hairpin (spec.passthroughCIDR ipv6) loopback ::
        spec.loopbackToInbound cfg.Redirect.DNS.Enabled loopback (spec.localhostCIDR ipv6)
          cfg.Owner.UID (cfg.Redirect.Inbound.RedirectChain.GetFullName cfg.Redirect.NamePrefix) ::
        spec.loopbackReturn cfg.Redirect.DNS.Enabled loopback cfg.Owner.UID ::
        spec.uidReturn cfg.Owner.UID ::
        (spec.outboundDNS cfg dnsServers ++
          (spec.localhostReturn (spec.localhostCIDR ipv6) :: spec.outboundDispatch cfg))),
      (∃ p, r = spec.portReturn p) ∨ r = spec.hairpin (spec.passthroughCIDR ipv6) loopback ∨
      r = spec.loopbackToInbound cfg.Redirect.DNS.Enabled loopback (spec.localhostCIDR ipv6)
          cfg.Owner.UID (cfg.Redirect.Inbound.RedirectChain.GetFullName cfg.Redirect.NamePrefix) ∨
      r = spec.loopbackReturn cfg.Redirect.DNS.Enabled loopback cfg.Owner.UID ∨
      r = spec.uidReturn cfg.Owner.UID ∨
      (∃ P, r = spec.dnsTcpAll P) ∨ (∃ d P, r = spec.dnsTcpTo d P) ∨
      r = spec.localhostReturn (spec.localhostCIDR ipv6) ∨
      (∃ R, r = spec.bareJump R) ∨ (∃ p R, r = spec.portJump p R) := by
    intro r hr
    simp only [List.mem_append, List.mem_cons] at hr
    rcases hr with he | rfl | rfl | rfl | rfl | hd | rfl | hdisp
    · obtain ⟨-, p, -, rfl⟩ := mem_outboundExcludes cfg r he
      exact Or.inl ⟨p, rfl⟩
    · simp
    · simp
    · simp
    · simp
    · rcases mem_outboundDNS cfg dnsServers r hd with rfl | ⟨d, -, rfl⟩
      · exact Or.inr (Or.inr (Or.inr (Or.inr (Or.inr (Or.inl ⟨_, rfl⟩)))))
      · exact Or.inr (Or.inr (Or.inr (Or.inr (Or.inr (Or.inr (Or.inl ⟨_, _, rfl⟩))))))
    · simp
    · rcases mem_outboundDispatch cfg r hdisp with rfl | ⟨p, -, rfl⟩
      · exact Or.inr (Or.inr (Or.inr (Or.inr (Or.inr (Or.inr (Or.inr (Or.inr
          (Or.inl ⟨_, rfl⟩))))))))
      · exact Or.inr (Or.inr (Or.inr (Or.inr (Or.inr (Or.inr (Or.inr (Or.inr
          (Or.inr ⟨_, _, rfl⟩))))))))
  have hcidr : spec.localhostCIDR ipv6 = (if ipv6 then "::1/128" else "127.0.0.1/32") := rfl
  have hsrc : spec.passthroughCIDR ipv6 = (if ipv6 then "::6/128" else "127.0.0.6/32") := rfl
  refine ⟨?_, ?_, ?_, ?_, ?_⟩
  · rw [dropWhile_append_cons spec.isPortReturn _ _ _ ?_ ?_, hsrc]
    · rfl
    · intro r hr
      obtain ⟨-, p, -, rfl⟩ := mem_outboundExcludes cfg r hr
      rfl
    · rfl
  · intro r hr c hc
    rw [← hcidr]
    rcases hmem r hr with ⟨p, rfl⟩ | rfl | rfl | rfl | rfl | ⟨P, rfl⟩ | ⟨d, P, rfl⟩ | rfl |
      ⟨R, rfl⟩ | ⟨p, R, rfl⟩ <;>
      simp [spec.portReturn, spec.hairpin, spec.loopbackToInbound, spec.loopbackReturn,
        spec.uidReturn, spec.dnsTcpAll, spec.dnsTcpTo, spec.localhostReturn, spec.bareJump,
        spec.portJump, spec.loopbackTcp] at hc ⊢
    exact hc
  · intro r hr c hj hc
    rw [← hcidr]
    rcases hmem r hr with ⟨p, rfl⟩ | rfl | rfl | rfl | rfl | ⟨P, rfl⟩ | ⟨d, P, rfl⟩ | rfl |
      ⟨R, rfl⟩ | ⟨p, R, rfl⟩ <;>
      simp [spec.portReturn, spec.hairpin, spec.loopbackToInbound, spec.loopbackReturn,
        spec.uidReturn, spec.dnsTcpAll, spec.dnsTcpTo, spec.localhostReturn, spec.bareJump,
        spec.portJump, spec.loopbackTcp] at hc hj ⊢
    exact hc
  · rw [← hcidr]
    simp
  · rw [← hcidr]
    simp

/-- C4, at the default configuration with exclude port 22, for IPv6. -/
theorem buildMeshOutbound_hairpin_and_localhost_witness :
    ((buildMeshOutbound
        { config.defaultConfig with
          Redirect := { config.defaultConfig.Redirect with
            Outbound := { config.defaultConfig.Redirect.Outbound with
              ExcludePorts := [22] } } }
        [] "lo" true).rules.dropWhile spec.isPortReturn).head? =
      some (spec.hairpin "::6/128" "lo") :=
  (buildMeshOutbound_hairpin_and_localhost
    { config.defaultConfig with
      Redirect := { config.defaultConfig.Redirect with
        Outbound := { config.defaultConfig.Redirect.Outbound with
          ExcludePorts := [22] } } }
    [] "lo" true rfl).1

/-- C5: with outbound redirection enabled and a non-empty include list,
`MESH_OUTBOUND` holds no rule `-p tcp --dport p -j RETURN` for an exclude port `p`
(it holds no rule of that shape at all); with an empty include list the rules of
that shape are exactly one per exclude port, in config order, and they are the head
of the chain. -/
theorem buildMeshOutbound_excludes (cfg : config.Config) (dnsServers : List String)
    (loopback : String) (ipv6 : Bool)
    (hen : cfg.Redirect.Outbound.Enabled = true) :
    (cfg.Redirect.Outbound.IncludePorts ≠ [] →
      (∀ p ∈ cfg.Redirect.Outbound.ExcludePorts,
        spec.portReturn p ∉ (buildMeshOutbound cfg dnsServers loopback ipv6).rules) ∧
      (buildMeshOutbound cfg dnsServers loopback ipv6).rules.filter spec.isPortReturn = []) ∧
    (cfg.Redirect.Outbound.IncludePorts = [] →
      (buildMeshOutbound cfg dnsServers loopback ipv6).rules.take
          cfg.Redirect.Outbound.ExcludePorts.length =
        cfg.Redirect.Outbound.ExcludePorts.map (fun p => spec.portReturn p) ∧
      (buildMeshOutbound cfg dnsServers loopback ipv6).rules.filter spec.isPortReturn =
        cfg.Redirect.Outbound.ExcludePorts.map (fun p => spec.portReturn p)) := by
  have hrules := buildMeshOutbound_rules cfg dnsServers loopback ipv6 hen
  have hfilter : (buildMeshOutbound cfg dnsServers loopback ipv6).rules.filter
      spec.isPortReturn = spec.outboundExcludes cfg := by
    rw [hrules]
    have h1 : (spec.outboundExcludes cfg).filter spec.isPortReturn =
        spec.outboundExcludes cfg := by
      rw [List.filter_eq_self]
      intro r hr
      obtain ⟨-, p, -, rfl⟩ := mem_outboundExcludes cfg r hr
      rfl
    have h2 : (spec.outboundDNS cfg dnsServers).filter spec.isPortReturn = [] := by
      rw [List.filter_eq_nil_iff]
      intro r hr
      rcases mem_outboundDNS cfg dnsServers r hr with rfl | ⟨d, -, rfl⟩ <;>
        simp [spec.isPortReturn, spec.dnsTcpAll, spec.dnsTcpTo]
    have h3 : (spec.outboundDispatch cfg).filter spec.isPortReturn = [] := by
      rw [List.filter_eq_nil_iff]
      intro r hr
      rcases mem_outboundDispatch cfg r hr with rfl | ⟨p, -, rfl⟩ <;>
        simp [spec.isPortReturn, spec.bareJump, spec.portJump]
    simp only [List.filter_append, List.filter_cons, h1, h2, h3]
    simp [spec.isPortReturn, spec.hairpin, spec.loopbackToInbound, spec.loopbackReturn,
      spec.uidReturn, spec.localhostReturn, spec.loopbackTcp]
  constructor
  · intro hincl
    have hE : spec.outboundExcludes cfg = [] := by simp [spec.outboundExcludes, hincl]
    rw [hE] at hfilter
    refine ⟨?_, hfilter⟩
    intro p _ hmem
    have : spec.portReturn p ∈
        (buildMeshOutbound cfg dnsServers loopback ipv6).rules.filter spec.isPortReturn :=
      List.mem_filter.2 ⟨hmem, rfl⟩
    rw [hfilter] at this
    exact List.not_mem_nil _ this
  · intro hincl
    have hE : spec.outboundExcludes cfg =
        cfg.Redirect.Outbound.ExcludePorts.map (fun p => spec.portReturn p) := by
      simp [spec.outboundExcludes, hincl]
    rw [hE] at hfilter hrules
    refine ⟨?_, hfilter⟩
    rw [hrules]
    have hlen : cfg.Redirect.Outbound.ExcludePorts.length =
        (cfg.Redirect.Outbound.ExcludePorts.map (fun p => spec.portReturn p)).length := by
      simp
    rw [hlen, List.take_left]

/-- C5, at the default configuration with include port 80 and exclude port 22. -/
theorem buildMeshOutbound_excludes_witness :
    spec.portReturn 22 ∉
      (buildMeshOutbound
        { config.defaultConfig with
          Redirect := { config.defaultConfig.Redirect with
            Outbound := { config.defaultConfig.Redirect.Outbound with
              IncludePorts := [80], ExcludePorts := [22] } } }
        [] "lo" false).rules :=
  ((buildMeshOutbound_excludes
    { config.defaultConfig with
      Redirect := { config.defaultConfig.Redirect with
        Outbound := { config.defaultConfig.Redirect.Outbound with
          IncludePorts := [80], ExcludePorts := [22] } } }
    [] "lo" false rfl).1 (by decide)).1 22 (by decide)

/-- C6: with outbound redirection disabled, `buildMeshOutbound` returns the chain
named prefix + `Outbound.Chain.Name` whose only rule is `-p tcp -j RETURN`, whatever
the ports, DNS settings, nameservers, loopback name and address family. -/
theorem buildMeshOutbound_disabled (cfg : config.Config) (dnsServers : List String)
    (loopback : String) (ipv6 : Bool)
    (hdis : cfg.Redirect.Outbound.Enabled = false) :
    buildMeshOutbound cfg dnsServers loopback ipv6 =
      { name := cfg.Redirect.NamePrefix ++ cfg.Redirect.Outbound.Chain.Name,
        rules := [spec.tcpReturn] } := by
  simp [buildMeshOutbound, hdis, Chain.Append, NewChain, Jump, Tcp,
    config.Chain.GetFullName, spec.tcpReturn]

/-- C6, at the default configuration with outbound redirection switched off, DNS
capture on and include and exclude ports set. -/
theorem buildMeshOutbound_disabled_witness :
    buildMeshOutbound
        { config.defaultConfig with
          Redirect := { config.defaultConfig.Redirect with
            NamePrefix := "KUMA_"
            DNS := { config.defaultConfig.Redirect.DNS with Enabled := true }
            Outbound := { config.defaultConfig.Redirect.Outbound with
              Enabled := false, IncludePorts := [80], ExcludePorts := [22] } } }
        ["8.8.8.8"] "lo" true =
      { name := "KUMA_" ++ "MESH_OUTBOUND", rules := [spec.tcpReturn] } :=
  buildMeshOutbound_disabled
    { config.defaultConfig with
      Redirect := { config.defaultConfig.Redirect with
        NamePrefix := "KUMA_"
        DNS := { config.defaultConfig.Redirect.DNS with Enabled := true }
        Outbound := { config.defaultConfig.Redirect.Outbound with
          Enabled := false, IncludePorts := [80], ExcludePorts := [22] } } }
    ["8.8.8.8"] "lo" true rfl

end Outbound

/-! ## `MESH_INBOUND` -/

section Inbound

open parameters chain builder

/-- C7: for an enabled inbound flow with a non-empty include list, the rules of
`MESH_INBOUND` are exactly one rule `-p tcp --dport p -j R` per include port, in
config order, and the chain is the same for every exclude list. -/
theorem buildMeshInbound_include (cfg : config.TrafficFlow) (pfx R : String)
    (hen : cfg.Enabled = true) (hincl : cfg.IncludePorts ≠ []) :
    (buildMeshInbound cfg pfx R).rules = cfg.IncludePorts.map (fun p => spec.portJump p R) ∧
    (buildMeshInbound cfg pfx R).name = pfx ++ cfg.Chain.Name ∧
    ∀ excludePorts : List Nat,
      buildMeshInbound { cfg with ExcludePorts := excludePorts } pfx R =
        buildMeshInbound cfg pfx R := by
  have hlen : cfg.IncludePorts.length ≠ 0 := by
    intro h
    exact hincl (List.length_eq_zero.1 h)
  refine ⟨?_, ?_, ?_⟩
  · simp [buildMeshInbound, hen, hlen, foldl_Append_rules, NewChain, Jump, Tcp,
      DestinationPort, spec.portJump]
  · simp [buildMeshInbound, hen, hlen, foldl_Append_rules, NewChain,
      config.Chain.GetFullName]
  · intro excludePorts
    simp [buildMeshInbound, hen, hlen]

/-- C7, on the inbound flow of the default configuration with include ports 80 and
8080 and exclude port 22. -/
theorem buildMeshInbound_include_witness :
    (buildMeshInbound
        { config.defaultConfig.Redirect.Inbound with
          IncludePorts := [80, 8080], ExcludePorts := [22] }
        "" "MESH_INBOUND_REDIRECT").rules =
      [spec.portJump 80 "MESH_INBOUND_REDIRECT", spec.portJump 8080 "MESH_INBOUND_REDIRECT"] :=
  (buildMeshInbound_include
    { config.defaultConfig.Redirect.Inbound with
      IncludePorts := [80, 8080], ExcludePorts := [22] }
    "" "MESH_INBOUND_REDIRECT" rfl (by decide)).1

/-- C8: for an enabled inbound flow with an empty include list, `MESH_INBOUND` has
exactly `len(excludePorts) + 1` rules: one rule `-p tcp --dport p -j RETURN` per
exclude port, in config order, followed by the catch-all `-p tcp -j R` as the last
rule. -/
theorem buildMeshInbound_exclude (cfg : config.TrafficFlow) (pfx R : String)
    (hen : cfg.Enabled = true) (hincl : cfg.IncludePorts = []) :
    (buildMeshInbound cfg pfx R).rules =
        cfg.ExcludePorts.map (fun p => spec.portReturn p) ++ [spec.tcpJump R] ∧
    (buildMeshInbound cfg pfx R).rules.length = cfg.ExcludePorts.length + 1 ∧
    (buildMeshInbound cfg pfx R).rules.getLast? = some (spec.tcpJump R) := by
  have hrules : (buildMeshInbound cfg pfx R).rules =
      cfg.ExcludePorts.map (fun p => spec.portReturn p) ++ [spec.tcpJump R] := by
    simp only [buildMeshInbound, foldl_Append_rules]
    simp [hen, hincl, Chain.Append, NewChain, Jump, Tcp, DestinationPort, spec.portReturn,
      spec.tcpJump]
  refine ⟨hrules, ?_, ?_⟩
  · rw [hrules]
    simp
  · rw [hrules]
    simp

/-- C8, on the inbound flow of the default configuration with exclude ports 22 and
443. -/
theorem buildMeshInbound_exclude_witness :
    (buildMeshInbound
        { config.defaultConfig.Redirect.Inbound with ExcludePorts := [22, 443] }
        "" "MESH_INBOUND_REDIRECT").rules =
      [spec.portReturn 22, spec.portReturn 443] ++ [spec.tcpJump "MESH_INBOUND_REDIRECT"] :=
  (buildMeshInbound_exclude
    { config.defaultConfig.Redirect.Inbound with ExcludePorts := [22, 443] }
    "" "MESH_INBOUND_REDIRECT" rfl rfl).1

/-- C9: for a disabled inbound flow, whatever its include and exclude lists,
`MESH_INBOUND` holds exactly one rule, `-p tcp -j RETURN`, and no rule that jumps
to the inbound redirect chain. -/
theorem buildMeshInbound_disabled (cfg : config.TrafficFlow) (pfx R : String)
    (hdis : cfg.Enabled = false) :
    (buildMeshInbound cfg pfx R).rules = [spec.tcpReturn] ∧
    ∀ r ∈ (buildMeshInbound cfg pfx R).rules, r.jump ≠ JumpParameter.ToUserDefinedChain R := by
  have hrules : (buildMeshInbound cfg pfx R).rules = [spec.tcpReturn] := by
    simp [buildMeshInbound, hdis, Chain.Append, NewChain, Jump, Tcp, spec.tcpReturn]
  refine ⟨hrules, ?_⟩
  intro r hr
  rw [hrules] at hr
  rw [List.mem_singleton.1 hr]
  simp [spec.tcpReturn]

/-- C9, on the inbound flow of the default configuration, switched off, with
include port 80 and exclude port 22. -/
theorem buildMeshInbound_disabled_witness :
    (buildMeshInbound
        { config.defaultConfig.Redirect.Inbound with
          Enabled := false, IncludePorts := [80], ExcludePorts := [22] }
        "" "MESH_INBOUND_REDIRECT").rules = [spec.tcpReturn] :=
  (buildMeshInbound_disabled
    { config.defaultConfig.Redirect.Inbound with
      Enabled := false, IncludePorts := [80], ExcludePorts := [22] }
    "" "MESH_INBOUND_REDIRECT" rfl).1

end Inbound

/-! ## Redirect chains and table assembly -/

section Redirects

open parameters chain builder

/-- C10: `buildMeshRedirect` returns the chain named prefix + `RedirectChain.Name`
with the single rule `-p tcp -j REDIRECT --to-ports P`, where `P` is `PortIPv6` when
`ipv6` is set and `PortIPv6` is not 0, and `Port` otherwise; the table built by
`buildNatTable` registers, as its third and fourth user chain, this chain for the
inbound and for the outbound flow. -/
theorem buildMeshRedirect_chain (cfg : config.Config) (flow : config.TrafficFlow)
    (pfx : String) (dnsServers : List String) (loopback : String) (ipv6 : Bool) :
    buildMeshRedirect flow pfx ipv6 =
        { name := pfx ++ flow.RedirectChain.Name,
          rules := [spec.tcpRedirect
            (if ipv6 = true ∧ flow.PortIPv6 ≠ 0 then flow.PortIPv6 else flow.Port)] } ∧
    (buildNatTable cfg dnsServers loopback ipv6).chains[2]? =
        some { name := cfg.Redirect.NamePrefix ++ cfg.Redirect.Inbound.RedirectChain.Name,
               rules := [spec.tcpRedirect
                 (if ipv6 = true ∧ cfg.Redirect.Inbound.PortIPv6 ≠ 0
                  then cfg.Redirect.Inbound.PortIPv6 else cfg.Redirect.Inbound.Port)] } ∧
    (buildNatTable cfg dnsServers loopback ipv6).chains[3]? =
        some { name := cfg.Redirect.NamePrefix ++ cfg.Redirect.Outbound.RedirectChain.Name,
               rules := [spec.tcpRedirect
                 (if ipv6 = true ∧ cfg.Redirect.Outbound.PortIPv6 ≠ 0
                  then cfg.Redirect.Outbound.PortIPv6 else cfg.Redirect.Outbound.Port)] } ∧
    (buildNatTable cfg dnsServers loopback ipv6).chains.length = 4 := by
  have hred : ∀ (fl : config.TrafficFlow) (q : String),
      buildMeshRedirect fl q ipv6 =
        { name := q ++ fl.RedirectChain.Name,
          rules := [spec.tcpRedirect
            (if ipv6 = true ∧ fl.PortIPv6 ≠ 0 then fl.PortIPv6 else fl.Port)] } := by
    intro fl q
    simp [buildMeshRedirect, Chain.Append, NewChain, Jump, Tcp, config.Chain.GetFullName,
      spec.tcpRedirect]
  have hchains : (buildNatTable cfg dnsServers loopback ipv6).chains =
      [buildMeshInbound cfg.Redirect.Inbound cfg.Redirect.NamePrefix
          (cfg.Redirect.Inbound.RedirectChain.GetFullName cfg.Redirect.NamePrefix),
        buildMeshOutbound cfg dnsServers loopback ipv6,
        buildMeshRedirect cfg.Redirect.Inbound cfg.Redirect.NamePrefix ipv6,
        buildMeshRedirect cfg.Redirect.Outbound cfg.Redirect.NamePrefix ipv6] := by
    simp [buildNatTable, table.NatTable.WithChain, (addOutputRules_frame _ _ _).1,
      table.NewNat]
  refine ⟨hred flow pfx, ?_, ?_, ?_⟩
  · rw [hchains, ← hred]
    rfl
  · rw [hchains, ← hred]
    rfl
  · rw [hchains]
    rfl

end Redirects

/-! ## Built-in chains and the assembled table -/

section Table

open parameters chain builder

/-- C11: the rules `addOutputRules` appends to `OUTPUT` are, in order: when DNS is
redirected, `-p udp --dport 53 -m owner --uid-owner U -j RETURN`, then either the one
rule `-p udp --dport 53 -j REDIRECT --to-ports dnsPort` (capture-all) or one rule
`-d d -p udp --dport 53 -j REDIRECT --to-ports dnsPort` per nameserver in list order;
and, always last, `-p tcp -j <prefix + Outbound.Chain.Name>`.  With DNS redirection
off that last rule is the only one appended. -/
theorem addOutputRules_output_rules (cfg : config.Config) (dnsServers : List String)
    (nat : table.NatTable) :
    (addOutputRules cfg dnsServers nat).output.rules =
        nat.output.rules ++
          ((if cfg.Redirect.DNS.Enabled = true then
              spec.uidUdpReturn cfg.Owner.UID ::
                (if cfg.Redirect.DNS.CaptureAll = true then
                  [spec.dnsUdpAll cfg.Redirect.DNS.Port]
                 else dnsServers.map (fun d => spec.dnsUdpTo d cfg.Redirect.DNS.Port))
            else []) ++
            [spec.tcpJump (cfg.Redirect.NamePrefix ++ cfg.Redirect.Outbound.Chain.Name)]) ∧
    (cfg.Redirect.DNS.Enabled = false →
      (addOutputRules cfg dnsServers table.NewNat).output.rules =
        [spec.tcpJump (cfg.Redirect.NamePrefix ++ cfg.Redirect.Outbound.Chain.Name)]) := by
  have h := addOutputRules_output cfg dnsServers
  constructor
  · rw [h nat]
    simp [spec.outputDNS, config.Chain.GetFullName]
  · intro hdis
    rw [h table.NewNat]
    simp [spec.outputDNS, hdis, config.Chain.GetFullName, table.NewNat, NewChain]

/-- C12: the `PREROUTING` chain of the table `buildNatTable` returns holds exactly
one rule, `-p tcp -j <prefix + Inbound.Chain.Name>`. -/
theorem buildNatTable_prerouting (cfg : config.Config) (dnsServers : List String)
    (loopback : String) (ipv6 : Bool) :
    (buildNatTable cfg dnsServers loopback ipv6).prerouting =
      { name := "PREROUTING",
        rules := [spec.tcpJump (cfg.Redirect.NamePrefix ++ cfg.Redirect.Inbound.Chain.Name)] } := by
  rw [buildNatTable_eq]

/-- C13: in the table `buildNatTable` returns, every rule of `PREROUTING`, `OUTPUT`
and the user chains whose target is a jump to a user-defined chain names a chain
registered as a user chain of that table. -/
theorem buildNatTable_jumps_resolved (cfg : config.Config) (dnsServers : List String)
    (loopback : String) (ipv6 : Bool) :
    spec.JumpsResolved (buildNatTable cfg dnsServers loopback ipv6) := by
  rw [buildNatTable_eq]
  intro c hc r hr n hj
  simp only [List.mem_cons, List.mem_singleton, List.not_mem_nil, or_false] at hc
  simp only [List.mem_cons, List.mem_singleton, List.not_mem_nil, or_false, exists_eq_or_imp,
    exists_eq_left]
  rcases hc with rfl | rfl | rfl | rfl | rfl | rfl
  · simp only [List.mem_singleton] at hr
    subst hr
    simp only [spec.tcpJump, JumpParameter.ToUserDefinedChain.injEq] at hj
    exact Or.inl hj
  · simp only [List.mem_append, List.mem_singleton] at hr
    rcases hr with hr | rfl
    · obtain ⟨-, rfl | rfl | ⟨d, -, rfl⟩⟩ := mem_outputDNS cfg dnsServers r hr <;>
        simp [spec.uidUdpReturn, spec.dnsUdpAll, spec.dnsUdpTo] at hj
    · simp only [spec.tcpJump, JumpParameter.ToUserDefinedChain.injEq] at hj
      exact Or.inr (Or.inl hj)
  · simp only at hr
    rcases mem_inboundRules _ _ r hr with rfl | ⟨p, -, rfl⟩ | rfl | ⟨p, -, rfl⟩
    · simp [spec.tcpReturn] at hj
    · simp [spec.portReturn] at hj
    · simp only [spec.tcpJump, JumpParameter.ToUserDefinedChain.injEq] at hj
      exact Or.inr (Or.inr (Or.inl hj))
    · simp only [spec.portJump, JumpParameter.ToUserDefinedChain.injEq] at hj
      exact Or.inr (Or.inr (Or.inl hj))
  · simp only at hr
    rcases mem_outboundRules cfg dnsServers loopback ipv6 r hr with
      rfl | ⟨p, -, rfl⟩ | rfl | rfl | rfl | rfl | ⟨-, rfl | ⟨d, -, rfl⟩⟩ | rfl | rfl | ⟨p, -, rfl⟩
    · simp [spec.tcpReturn] at hj
    · simp [spec.portReturn] at hj
    · simp [spec.hairpin] at hj
    · simp only [spec.loopbackToInbound, JumpParameter.ToUserDefinedChain.injEq,
        config.Chain.GetFullName] at hj
      exact Or.inr (Or.inr (Or.inl hj))
    · simp [spec.loopbackReturn] at hj
    · simp [spec.uidReturn] at hj
    · simp [spec.dnsTcpAll] at hj
    · simp [spec.dnsTcpTo] at hj
    · simp [spec.localhostReturn] at hj
    · simp only [spec.bareJump, JumpParameter.ToUserDefinedChain.injEq,
        config.Chain.GetFullName] at hj
      exact Or.inr (Or.inr (Or.inr hj))
    · simp only [spec.portJump, JumpParameter.ToUserDefinedChain.injEq,
        config.Chain.GetFullName] at hj
      exact Or.inr (Or.inr (Or.inr hj))
  · simp only [List.mem_singleton] at hr
    subst hr
    simp [spec.tcpRedirect] at hj
  · simp only [List.mem_singleton] at hr
    subst hr
    simp [spec.tcpRedirect] at hj

/-- C14, as stated, fails: with the inbound and the outbound redirect chain both named
`MESH_REDIRECT` the four user chains of the table do not have pairwise distinct
names. -/
theorem buildNatTable_user_chain_names_can_collide :
    ¬ ((buildNatTable spec.sharedRedirectConfig [] "lo" false).chains.map
        (fun c => c.name)).Nodup := by
  decide

/-- C14 (amended): the table `buildNatTable` returns consists of the built-ins
`PREROUTING` and `OUTPUT` and exactly four user chains, registered in the order
inbound chain, outbound chain, inbound redirect chain, outbound redirect chain, each
named by the prefix followed by the configured chain name; the four names are
pairwise distinct whenever the four configured chain names are. -/
theorem buildNatTable_six_chains (cfg : config.Config) (dnsServers : List String)
    (loopback : String) (ipv6 : Bool) :
    (buildNatTable cfg dnsServers loopback ipv6).prerouting.name = "PREROUTING" ∧
    (buildNatTable cfg dnsServers loopback ipv6).output.name = "OUTPUT" ∧
    (buildNatTable cfg dnsServers loopback ipv6).chains.map (fun c => c.name) =
      [cfg.Redirect.Inbound.Chain.GetFullName cfg.Redirect.NamePrefix,
       cfg.Redirect.Outbound.Chain.GetFullName cfg.Redirect.NamePrefix,
       cfg.Redirect.Inbound.RedirectChain.GetFullName cfg.Redirect.NamePrefix,
       cfg.Redirect.Outbound.RedirectChain.GetFullName cfg.Redirect.NamePrefix] ∧
    ([cfg.Redirect.Inbound.Chain.Name, cfg.Redirect.Outbound.Chain.Name,
        cfg.Redirect.Inbound.RedirectChain.Name,
        cfg.Redirect.Outbound.RedirectChain.Name].Nodup →
      ((buildNatTable cfg dnsServers loopback ipv6).chains.map (fun c => c.name)).Nodup) := by
  rw [buildNatTable_eq]
  refine ⟨rfl, rfl, rfl, ?_⟩
  intro hnd
  have hinj : Function.Injective (fun n : String => cfg.Redirect.NamePrefix ++ n) :=
    fun a b h => string_append_left_cancel _ a b h
  have hmap := List.Nodup.map hinj hnd
  simpa only [List.map_cons, List.map_nil] using hmap

/-- C14 (amended), at the default configuration: the four user chain names are
pairwise distinct. -/
theorem buildNatTable_six_chains_witness :
    ((buildNatTable config.defaultConfig ["8.8.8.8"] "lo" false).chains.map
      (fun c => c.name)).Nodup :=
  (buildNatTable_six_chains config.defaultConfig ["8.8.8.8"] "lo" false).2.2.2 (by decide)

/-- C15: with name prefix `s`, every user chain of the table `buildNatTable` returns
is named `s` followed by one of the four configured chain names, every jump to a
user-defined chain in any rule of the table targets such a name, and the built-in
chains are named `PREROUTING` and `OUTPUT`, without the prefix. -/
theorem buildNatTable_names_carry_prefix (cfg : config.Config) (dnsServers : List String)
    (loopback : String) (ipv6 : Bool) :
    (∀ c ∈ (buildNatTable cfg dnsServers loopback ipv6).chains,
      ∃ n ∈ [cfg.Redirect.Inbound.Chain.Name, cfg.Redirect.Outbound.Chain.Name,
          cfg.Redirect.Inbound.RedirectChain.Name, cfg.Redirect.Outbound.RedirectChain.Name],
        c.name = cfg.Redirect.NamePrefix ++ n) ∧
    (∀ c ∈ spec.allChains (buildNatTable cfg dnsServers loopback ipv6), ∀ r ∈ c.rules,
      ∀ target : String, r.jump = JumpParameter.ToUserDefinedChain target →
        ∃ n ∈ [cfg.Redirect.Inbound.Chain.Name, cfg.Redirect.Outbound.Chain.Name,
            cfg.Redirect.Inbound.RedirectChain.Name, cfg.Redirect.Outbound.RedirectChain.Name],
          target = cfg.Redirect.NamePrefix ++ n) ∧
    (buildNatTable cfg dnsServers loopback ipv6).prerouting.name = "PREROUTING" ∧
    (buildNatTable cfg dnsServers loopback ipv6).output.name = "OUTPUT" := by
  rw [buildNatTable_eq]
  refine ⟨?_, ?_, rfl, rfl⟩
  · intro c hc
    simp only [List.mem_cons, List.mem_singleton, List.not_mem_nil, or_false] at hc
    rcases hc with rfl | rfl | rfl | rfl <;> simp
  · intro c hc r hr target hj
    simp only [spec.allChains, List.mem_cons, List.mem_singleton, List.not_mem_nil,
      or_false] at hc
    simp only [List.mem_cons, List.mem_singleton, List.not_mem_nil, or_false,
      exists_eq_or_imp, exists_eq_left]
    rcases hc with rfl | rfl | rfl | rfl | rfl | rfl
    · simp only [List.mem_singleton] at hr
      subst hr
      simp only [spec.tcpJump, JumpParameter.ToUserDefinedChain.injEq] at hj
      exact Or.inl hj.symm
    · simp only [List.mem_append, List.mem_singleton] at hr
      rcases hr with hr | rfl
      · obtain ⟨-, rfl | rfl | ⟨d, -, rfl⟩⟩ := mem_outputDNS cfg dnsServers r hr <;>
          simp [spec.uidUdpReturn, spec.dnsUdpAll, spec.dnsUdpTo] at hj
      · simp only [spec.tcpJump, JumpParameter.ToUserDefinedChain.injEq] at hj
        exact Or.inr (Or.inl hj.symm)
    · simp only at hr
      rcases mem_inboundRules _ _ r hr with rfl | ⟨p, -, rfl⟩ | rfl | ⟨p, -, rfl⟩
      · simp [spec.tcpReturn] at hj
      · simp [spec.portReturn] at hj
      · simp only [spec.tcpJump, JumpParameter.ToUserDefinedChain.injEq] at hj
        exact Or.inr (Or.inr (Or.inl hj.symm))
      · simp only [spec.portJump, JumpParameter.ToUserDefinedChain.injEq] at hj
        exact Or.inr (Or.inr (Or.inl hj.symm))
    · simp only at hr
      rcases mem_outboundRules cfg dnsServers loopback ipv6 r hr with
        rfl | ⟨p, -, rfl⟩ | rfl | rfl | rfl | rfl | ⟨-, rfl | ⟨d, -, rfl⟩⟩ | rfl | rfl |
        ⟨p, -, rfl⟩
      · simp [spec.tcpReturn] at hj
      · simp [spec.portReturn] at hj
      · simp [spec.hairpin] at hj
      · simp only [spec.loopbackToInbound, JumpParameter.ToUserDefinedChain.injEq,
          config.Chain.GetFullName] at hj
        exact Or.inr (Or.inr (Or.inl hj.symm))
      · simp [spec.loopbackReturn] at hj
      · simp [spec.uidReturn] at hj
      · simp [spec.dnsTcpAll] at hj
      · simp [spec.dnsTcpTo] at hj
      · simp [spec.localhostReturn] at hj
      · simp only [spec.bareJump, JumpParameter.ToUserDefinedChain.injEq,
          config.Chain.GetFullName] at hj
        exact Or.inr (Or.inr (Or.inr hj.symm))
      · simp only [spec.portJump, JumpParameter.ToUserDefinedChain.injEq,
          config.Chain.GetFullName] at hj
        exact Or.inr (Or.inr (Or.inr hj.symm))
    · simp only [List.mem_singleton] at hr
      subst hr
      simp [spec.tcpRedirect] at hj
    · simp only [List.mem_singleton] at hr
      subst hr
      simp [spec.tcpRedirect] at hj

/-- C16, as stated, fails: with DNS redirection off and 53 as an inbound exclude port,
`MESH_INBOUND` holds `-p tcp --dport 53 -j RETURN`, a rule that references port
53. -/
theorem buildNatTable_dns_disabled_can_reference_53 :
    spec.excludeDNSPortConfig.Redirect.DNS.Enabled = false ∧
    ∃ c ∈ spec.allChains (buildNatTable spec.excludeDNSPortConfig [] "lo" false),
      ∃ r ∈ c.rules, spec.referencesPort r 53 = true := by
  decide

/-- C16 (amended): with DNS redirection off, and port 53 neither among the include
or exclude ports of either flow nor the port of either redirect chain, no rule in
any chain of the table `buildNatTable` returns references port 53. -/
theorem buildNatTable_dns_disabled_no_53 (cfg : config.Config) (dnsServers : List String)
    (loopback : String) (ipv6 : Bool)
    (hdns : cfg.Redirect.DNS.Enabled = false)
    (hii : 53 ∉ cfg.Redirect.Inbound.IncludePorts)
    (hie : 53 ∉ cfg.Redirect.Inbound.ExcludePorts)
    (hoi : 53 ∉ cfg.Redirect.Outbound.IncludePorts)
    (hoe : 53 ∉ cfg.Redirect.Outbound.ExcludePorts)
    (hip : spec.redirectPort cfg.Redirect.Inbound ipv6 ≠ 53)
    (hop : spec.redirectPort cfg.Redirect.Outbound ipv6 ≠ 53) :
    ∀ c ∈ spec.allChains (buildNatTable cfg dnsServers loopback ipv6), ∀ r ∈ c.rules,
      spec.referencesPort r 53 = false := by
  rw [buildNatTable_eq]
  intro c hc r hr
  have hport : ∀ (ps : List Nat) (p : Nat), 53 ∉ ps → p ∈ ps → ¬ p = 53 := by
    intro ps p hn hp he
    exact hn (he ▸ hp)
  simp only [spec.allChains, List.mem_cons, List.mem_singleton, List.not_mem_nil,
    or_false] at hc
  rcases hc with rfl | rfl | rfl | rfl | rfl | rfl
  · simp only [List.mem_singleton] at hr
    subst hr
    simp [spec.referencesPort, spec.predicateMentions, spec.optionsMention, spec.tcpJump]
  · simp only [List.mem_append, List.mem_singleton] at hr
    rcases hr with hr | rfl
    · have := (mem_outputDNS cfg dnsServers r hr).1
      rw [hdns] at this
      exact absurd this (by decide)
    · simp [spec.referencesPort, spec.predicateMentions, spec.optionsMention, spec.tcpJump]
  · simp only at hr
    rcases mem_inboundRules _ _ r hr with rfl | ⟨p, hp, rfl⟩ | rfl | ⟨p, hp, rfl⟩
    · simp [spec.referencesPort, spec.predicateMentions, spec.optionsMention, spec.tcpReturn]
    · simpa [spec.referencesPort, spec.predicateMentions, spec.optionsMention,
        spec.portReturn] using hport _ p hie hp
    · simp [spec.referencesPort, spec.predicateMentions, spec.optionsMention, spec.tcpJump]
    · simpa [spec.referencesPort, spec.predicateMentions, spec.optionsMention,
        spec.portJump] using hport _ p hii hp
  · simp only at hr
    rcases mem_outboundRules cfg dnsServers loopback ipv6 r hr with
      rfl | ⟨p, hp, rfl⟩ | rfl | rfl | rfl | rfl | ⟨hen, -⟩ | rfl | rfl | ⟨p, hp, rfl⟩
    · simp [spec.referencesPort, spec.predicateMentions, spec.optionsMention, spec.tcpReturn]
    · simpa [spec.referencesPort, spec.predicateMentions, spec.optionsMention,
        spec.portReturn] using hport _ p hoe hp
    · simp [spec.referencesPort, spec.predicateMentions, spec.optionsMention, spec.hairpin]
    · simp [spec.referencesPort, spec.predicateMentions, spec.optionsMention,
        spec.loopbackToInbound, spec.loopbackTcp, hdns]
    · simp [spec.referencesPort, spec.predicateMentions, spec.optionsMention,
        spec.loopbackReturn, spec.loopbackTcp, hdns]
    · simp [spec.referencesPort, spec.predicateMentions, spec.optionsMention, spec.uidReturn]
    · rw [hdns] at hen
      exact absurd hen (by decide)
    · simp [spec.referencesPort, spec.predicateMentions, spec.optionsMention,
        spec.localhostReturn]
    · simp [spec.referencesPort, spec.predicateMentions, spec.optionsMention, spec.bareJump]
    · simpa [spec.referencesPort, spec.predicateMentions, spec.optionsMention,
        spec.portJump] using hport _ p hoi hp
  · simp only [List.mem_singleton] at hr
    subst hr
    simpa [spec.referencesPort, spec.predicateMentions, spec.optionsMention,
      spec.tcpRedirect] using hip
  · simp only [List.mem_singleton] at hr
    subst hr
    simpa [spec.referencesPort, spec.predicateMentions, spec.optionsMention,
      spec.tcpRedirect] using hop

/-- C16 (amended), at the default configuration with outbound exclude port 22 and a
nameserver, for IPv6: the exclude rule of `MESH_OUTBOUND` does not reference port
53. -/
theorem buildNatTable_dns_disabled_no_53_witness :
    spec.referencesPort (spec.portReturn 22) 53 = false :=
  buildNatTable_dns_disabled_no_53
    { config.defaultConfig with
      Redirect := { config.defaultConfig.Redirect with
        Outbound := { config.defaultConfig.Redirect.Outbound with ExcludePorts := [22] } } }
    ["8.8.8.8"] "lo" true rfl (by decide) (by decide) (by decide) (by decide) (by decide)
    (by decide)
    (buildMeshOutbound
      { config.defaultConfig with
        Redirect := { config.defaultConfig.Redirect with
          Outbound := { config.defaultConfig.Redirect.Outbound with ExcludePorts := [22] } } }
      ["8.8.8.8"] "lo" true)
    (by decide) (spec.portReturn 22) (by decide)

end Table

/-! ## Address families -/

section Families

open parameters chain builder

/-- C17: the table `buildNatTable` returns for IPv6 is the table it returns for IPv4
with, rule by rule, `127.0.0.6/32` replaced by `::6/128` as passthrough source,
`127.0.0.1/32` replaced by `::1/128` as localhost CIDR, and `Port` replaced by
`PortIPv6` in a redirect chain whose `PortIPv6` is not 0; the two tables have the
same chains in the same order and the same number of rules in each chain. -/
theorem buildNatTable_ipv6_symmetry (cfg : config.Config) (dnsServers : List String)
    (loopback : String) :
    buildNatTable cfg dnsServers loopback true =
        spec.toIPv6 cfg (buildNatTable cfg dnsServers loopback false) ∧
    (spec.allChains (buildNatTable cfg dnsServers loopback true)).map (fun c => c.name) =
        (spec.allChains (buildNatTable cfg dnsServers loopback false)).map (fun c => c.name) ∧
    (spec.allChains (buildNatTable cfg dnsServers loopback true)).map
          (fun c => c.rules.length) =
        (spec.allChains (buildNatTable cfg dnsServers loopback false)).map
          (fun c => c.rules.length) := by
  have heq : buildNatTable cfg dnsServers loopback true =
      spec.toIPv6 cfg (buildNatTable cfg dnsServers loopback false) := by
    rw [buildNatTable_eq, buildNatTable_eq]
    simp only [spec.toIPv6, spec.mapRules, List.zipWith_cons_cons, List.zipWith_nil_right,
      List.map_append, List.map_cons, List.map_nil, map_ipv6Rule_inboundRules,
      map_ipv6Rule_outputDNS, map_ipv6Rule_outboundRules, ipv6Redirect_tcpRedirect]
    simp [spec.ipv6Rule, spec.ipv6Predicate, spec.tcpJump]
  refine ⟨heq, ?_, ?_⟩
  · rw [heq, buildNatTable_eq]
    simp [spec.toIPv6, spec.mapRules, spec.allChains]
  · rw [heq, buildNatTable_eq]
    simp [spec.toIPv6, spec.mapRules, spec.allChains]

/-- C20: `buildNatTable` does not read `DropInvalidPackets`,
`Redirect.DNS.ConntrackZoneSplit`, `Redirect.DNS.ResolvConfigPath`, `Ebpf`, `Verbose`,
`DryRun` or the top-level `IPv6` field: a config changed in these fields only gives
the same table for the same nameservers, loopback name and `ipv6` argument. -/
theorem buildNatTable_ignores_reserved (cfg : config.Config) (dnsServers : List String)
    (loopback : String) (ipv6 : Bool) (dropInvalidPackets zoneSplit verbose dryRun
    ipv6Field : Bool) (resolvConfigPath : String) (ebpf : config.Ebpf) :
    buildNatTable
        { cfg with
          DropInvalidPackets := dropInvalidPackets
          Ebpf := ebpf
          Verbose := verbose
          DryRun := dryRun
          IPv6 := ipv6Field
          Redirect := { cfg.Redirect with
            DNS := { cfg.Redirect.DNS with
              ConntrackZoneSplit := zoneSplit
              ResolvConfigPath := resolvConfigPath } } }
        dnsServers loopback ipv6 =
      buildNatTable cfg dnsServers loopback ipv6 := by
  rfl

end Families

/-! ## Configuration merging -/

section Merging

open parameters chain builder config

/-- C18: config normalisation is idempotent for compilation: `buildNatTable` gives the
same table on `MergeConfigWithDefaults(cfg)` and on
`MergeConfigWithDefaults(MergeConfigWithDefaults(cfg))`, for every nameserver list,
loopback name and `ipv6` flag; indeed the twice-merged config equals the once-merged
config, so every field agrees. -/
theorem buildNatTable_merge_idempotent (cfg : config.Config) (dnsServers : List String)
    (loopback : String) (ipv6 : Bool) :
    buildNatTable (MergeConfigWithDefaults cfg) dnsServers loopback ipv6 =
        buildNatTable (MergeConfigWithDefaults (MergeConfigWithDefaults cfg))
          dnsServers loopback ipv6 ∧
    MergeConfigWithDefaults (MergeConfigWithDefaults cfg) = MergeConfigWithDefaults cfg := by
  have h := MergeConfigWithDefaults_idem cfg
  exact ⟨by rw [h], h⟩

/-- C19, as stated, fails: a boolean that is false in the input is not treated as
unset; with inbound `Enabled`, DNS `CaptureAll` and `Verbose` false in the input, the
merged config holds false where `defaultConfig()` gives true. -/
theorem MergeConfigWithDefaults_false_is_not_unset :
    spec.dnsOnlyConfig.Redirect.Inbound.Enabled = false ∧
    (MergeConfigWithDefaults spec.dnsOnlyConfig).Redirect.Inbound.Enabled ≠
      defaultConfig.Redirect.Inbound.Enabled ∧
    spec.dnsOnlyConfig.Redirect.DNS.CaptureAll = false ∧
    (MergeConfigWithDefaults spec.dnsOnlyConfig).Redirect.DNS.CaptureAll ≠
      defaultConfig.Redirect.DNS.CaptureAll ∧
    spec.dnsOnlyConfig.Verbose = false ∧
    (MergeConfigWithDefaults spec.dnsOnlyConfig).Verbose ≠ defaultConfig.Verbose := by
  decide

/-- C19 (amended): every field other than the five booleans whose default is true
(inbound `Enabled`, outbound `Enabled`, DNS `CaptureAll`, DNS `ConntrackZoneSplit`,
`Verbose`) that is empty, 0, false or nil in the input holds, in the merged config, the
value `defaultConfig()` gives it. -/
theorem MergeConfigWithDefaults_defaults (cfg : config.Config) :
    -- texts
    (cfg.Owner.UID = "" → (MergeConfigWithDefaults cfg).Owner.UID = defaultConfig.Owner.UID) ∧
    (cfg.Redirect.NamePrefix = "" →
      (MergeConfigWithDefaults cfg).Redirect.NamePrefix = defaultConfig.Redirect.NamePrefix) ∧
    (cfg.Redirect.Inbound.Chain.Name = "" →
      (MergeConfigWithDefaults cfg).Redirect.Inbound.Chain.Name =
        defaultConfig.Redirect.Inbound.Chain.Name) ∧
    (cfg.Redirect.Inbound.RedirectChain.Name = "" →
      (MergeConfigWithDefaults cfg).Redirect.Inbound.RedirectChain.Name =
        defaultConfig.Redirect.Inbound.RedirectChain.Name) ∧
    (cfg.Redirect.Outbound.Chain.Name = "" →
      (MergeConfigWithDefaults cfg).Redirect.Outbound.Chain.Name =
        defaultConfig.Redirect.Outbound.Chain.Name) ∧
    (cfg.Redirect.Outbound.RedirectChain.Name = "" →
      (MergeConfigWithDefaults cfg).Redirect.Outbound.RedirectChain.Name =
        defaultConfig.Redirect.Outbound.RedirectChain.Name) ∧
    (cfg.Redirect.DNS.ResolvConfigPath = "" →
      (MergeConfigWithDefaults cfg).Redirect.DNS.ResolvConfigPath =
        defaultConfig.Redirect.DNS.ResolvConfigPath) ∧
    (cfg.Ebpf.InstanceIP = "" →
      (MergeConfigWithDefaults cfg).Ebpf.InstanceIP = defaultConfig.Ebpf.InstanceIP) ∧
    (cfg.Ebpf.BPFFSPath = "" →
      (MergeConfigWithDefaults cfg).Ebpf.BPFFSPath = defaultConfig.Ebpf.BPFFSPath) ∧
    (cfg.Ebpf.ProgramsSourcePath = "" →
      (MergeConfigWithDefaults cfg).Ebpf.ProgramsSourcePath =
        defaultConfig.Ebpf.ProgramsSourcePath) ∧
    -- ports
    (cfg.Redirect.Inbound.Port = 0 →
      (MergeConfigWithDefaults cfg).Redirect.Inbound.Port = defaultConfig.Redirect.Inbound.Port) ∧
    (cfg.Redirect.Inbound.PortIPv6 = 0 →
      (MergeConfigWithDefaults cfg).Redirect.Inbound.PortIPv6 =
        defaultConfig.Redirect.Inbound.PortIPv6) ∧
    (cfg.Redirect.Outbound.Port = 0 →
      (MergeConfigWithDefaults cfg).Redirect.Outbound.Port =
        defaultConfig.Redirect.Outbound.Port) ∧
    (cfg.Redirect.Outbound.PortIPv6 = 0 →
      (MergeConfigWithDefaults cfg).Redirect.Outbound.PortIPv6 =
        defaultConfig.Redirect.Outbound.PortIPv6) ∧
    (cfg.Redirect.DNS.Port = 0 →
      (MergeConfigWithDefaults cfg).Redirect.DNS.Port = defaultConfig.Redirect.DNS.Port) ∧
    -- port lists
    (cfg.Redirect.Inbound.ExcludePorts = [] →
      (MergeConfigWithDefaults cfg).Redirect.Inbound.ExcludePorts =
        defaultConfig.Redirect.Inbound.ExcludePorts) ∧
    (cfg.Redirect.Inbound.IncludePorts = [] →
      (MergeConfigWithDefaults cfg).Redirect.Inbound.IncludePorts =
        defaultConfig.Redirect.Inbound.IncludePorts) ∧
    (cfg.Redirect.Outbound.ExcludePorts = [] →
      (MergeConfigWithDefaults cfg).Redirect.Outbound.ExcludePorts =
        defaultConfig.Redirect.Outbound.ExcludePorts) ∧
    (cfg.Redirect.Outbound.IncludePorts = [] →
      (MergeConfigWithDefaults cfg).Redirect.Outbound.IncludePorts =
        defaultConfig.Redirect.Outbound.IncludePorts) ∧
    -- writers
    (cfg.RuntimeStdout = none →
      (MergeConfigWithDefaults cfg).RuntimeStdout = defaultConfig.RuntimeStdout) ∧
    (cfg.RuntimeStderr = none →
      (MergeConfigWithDefaults cfg).RuntimeStderr = defaultConfig.RuntimeStderr) ∧
    -- booleans whose default is false
    (cfg.Redirect.DNS.Enabled = false →
      (MergeConfigWithDefaults cfg).Redirect.DNS.Enabled = defaultConfig.Redirect.DNS.Enabled) ∧
    (cfg.Ebpf.Enabled = false →
      (MergeConfigWithDefaults cfg).Ebpf.Enabled = defaultConfig.Ebpf.Enabled) ∧
    (cfg.DropInvalidPackets = false →
      (MergeConfigWithDefaults cfg).DropInvalidPackets = defaultConfig.DropInvalidPackets) ∧
    (cfg.IPv6 = false → (MergeConfigWithDefaults cfg).IPv6 = defaultConfig.IPv6) ∧
    (cfg.DryRun = false → (MergeConfigWithDefaults cfg).DryRun = defaultConfig.DryRun) := by
  rw [MergeConfigWithDefaults_eq cfg]
  refine ⟨?_, ?_, ?_, ?_, ?_, ?_, ?_, ?_, ?_, ?_, ?_, ?_, ?_, ?_, ?_, ?_, ?_, ?_, ?_, ?_, ?_,
    ?_, ?_, ?_, ?_, ?_⟩ <;>
  · intro h
    simp [h, defaultConfig]

/-- C19 (amended), at a config with only DNS redirection set: the unset inbound port
becomes 15006. -/
theorem MergeConfigWithDefaults_defaults_witness :
    (MergeConfigWithDefaults spec.dnsOnlyConfig).Redirect.Inbound.Port = 15006 :=
  (MergeConfigWithDefaults_defaults spec.dnsOnlyConfig).2.2.2.2.2.2.2.2.2.2.1 rfl

end Merging

/-! ## Conntrack zone splitting -/

section Conntrack

open config

/-- C21: when DNS redirection is off or `ConntrackZoneSplit` is false,
`ShouldConntrackZoneSplit` returns false without running the conntrack probe and
without writing to `RuntimeStdout`, whatever the probe would answer; when both are
set it returns true exactly when the probe succeeds. -/
theorem ShouldConntrackZoneSplit_gate (c : config.Config) :
    ((c.Redirect.DNS.Enabled = false ∨ c.Redirect.DNS.ConntrackZoneSplit = false) →
      ∀ probe : Unit → Option String,
        c.ShouldConntrackZoneSplit probe =
          some (false, { probed := false, written := [] })) ∧
    ((c.Redirect.DNS.Enabled = true ∧ c.Redirect.DNS.ConntrackZoneSplit = true) →
      ∀ probe : Unit → Option String,
        ((∃ t : ProbeTrace, c.ShouldConntrackZoneSplit probe = some (true, t)) ↔
          probe () = none)) := by
  constructor
  · rintro (h | h) probe <;> simp [Config.ShouldConntrackZoneSplit, h]
  · rintro ⟨h1, h2⟩ probe
    cases hp : probe () with
    | none => simp [Config.ShouldConntrackZoneSplit, h1, h2, hp]
    | some err =>
      cases hw : c.RuntimeStdout <;>
        simp [Config.ShouldConntrackZoneSplit, h1, h2, hp, hw]

/-- C21, at the default configuration, where DNS redirection is off: a failing probe
is not run. -/
theorem ShouldConntrackZoneSplit_gate_witness :
    defaultConfig.ShouldConntrackZoneSplit (fun _ => some "exit status 2") =
      some (false, { probed := false, written := [] }) :=
  (ShouldConntrackZoneSplit_gate defaultConfig).1 (Or.inl rfl) (fun _ => some "exit status 2")

end Conntrack

/-! ## The DNS tests of `dns_test.go` -/

section DNSTests

open parameters chain builder config

/-- The code on the configuration of the DNS/UDP tests, for every port, nameserver
list and `IPv6` value: merged with the defaults, `CaptureAll` is false; `OUTPUT` holds
the sidecar exemption, one redirect per nameserver restricted to that nameserver by
`-d`, and the jump to `MESH_OUTBOUND`, and no rule that redirects UDP port 53 whatever
the destination. -/
theorem addOutputRules_dns_test_config (p : Nat) (ipv6 : Bool) (dnsServers : List String) :
    (MergeConfigWithDefaults (spec.dnsUdpTestConfig p ipv6)).Redirect.DNS.CaptureAll = false ∧
    (addOutputRules (MergeConfigWithDefaults (spec.dnsUdpTestConfig p ipv6)) dnsServers
        table.NewNat).output.rules =
      spec.uidUdpReturn "5678" ::
        (dnsServers.map (fun d => spec.dnsUdpTo d (if p = 0 then 15053 else p)) ++
          [spec.tcpJump "MESH_OUTBOUND"]) ∧
    ∀ q : Nat,
      (addOutputRules (MergeConfigWithDefaults (spec.dnsUdpTestConfig p ipv6)) dnsServers
          table.NewNat).output.rules.any
        (spec.redirectsAnyDestination ProtocolParameter.udp q) = false := by
  have hcfg := MergeConfigWithDefaults_eq (spec.dnsUdpTestConfig p ipv6)
  have hrules : (addOutputRules (MergeConfigWithDefaults (spec.dnsUdpTestConfig p ipv6))
      dnsServers table.NewNat).output.rules =
      spec.uidUdpReturn "5678" ::
        (dnsServers.map (fun d => spec.dnsUdpTo d (if p = 0 then 15053 else p)) ++
          [spec.tcpJump "MESH_OUTBOUND"]) := by
    rw [addOutputRules_output, hcfg]
    by_cases hp : p = 0 <;>
      simp [spec.outputDNS, spec.dnsUdpTestConfig, spec.zeroConfig, table.NewNat, NewChain,
        config.Chain.GetFullName, hp]
  refine ⟨?_, hrules, ?_⟩
  · rw [hcfg]
    rfl
  · intro q
    rw [hrules]
    simp [spec.redirectsAnyDestination, spec.isDestinationPredicate, spec.uidUdpReturn,
      spec.dnsUdpTo, spec.tcpJump]

/-- The code on the configuration of the DNS/TCP tests, for all ports, nameserver
lists, loopback names and families: merged with the defaults, outbound redirection is off, and `MESH_OUTBOUND` is the single rule
`-p tcp -j RETURN`: it holds no redirect of TCP port 53 and no jump to the outbound
redirect chain. -/
theorem buildMeshOutbound_dns_test_config (dnsPort outboundPort : Nat) (ipv6 : Bool)
    (dnsServers : List String) (loopback : String) (family : Bool) :
    (MergeConfigWithDefaults
        (spec.dnsTcpTestConfig dnsPort outboundPort ipv6)).Redirect.Outbound.Enabled = false ∧
    buildMeshOutbound (MergeConfigWithDefaults (spec.dnsTcpTestConfig dnsPort outboundPort ipv6))
        dnsServers loopback family =
      { name := "MESH_OUTBOUND", rules := [spec.tcpReturn] } ∧
    ∀ q : Nat,
      (buildMeshOutbound
          (MergeConfigWithDefaults (spec.dnsTcpTestConfig dnsPort outboundPort ipv6))
          dnsServers loopback family).rules.any
        (spec.redirectsAnyDestination ProtocolParameter.tcp q) = false := by
  have hcfg := MergeConfigWithDefaults_eq (spec.dnsTcpTestConfig dnsPort outboundPort ipv6)
  have hchain : buildMeshOutbound
      (MergeConfigWithDefaults (spec.dnsTcpTestConfig dnsPort outboundPort ipv6))
      dnsServers loopback family =
      { name := "MESH_OUTBOUND", rules := [spec.tcpReturn] } := by
    rw [buildMeshOutbound_chain, hcfg]
    simp [spec.outboundRules, spec.dnsTcpTestConfig, spec.zeroConfig]
  refine ⟨?_, hchain, ?_⟩
  · rw [hcfg]
    rfl
  · intro q
    rw [hchain]
    simp [spec.redirectsAnyDestination, spec.tcpReturn]

end DNSTests

/-! ## DNS settings and the loopback rules -/

section DNSSettings

open parameters chain builder config

/-- C24: with outbound redirection enabled, the two rules of `MESH_OUTBOUND` that
directly follow the hairpin passthrough rule are the jump to the inbound redirect
chain `-p tcp -o loopback ! -d LOCALHOST -m owner --uid-owner U -j IR` and
`-p tcp -o loopback -m owner ! --uid-owner U -j RETURN`, in that order; their protocol
predicate carries `! --dport 53` when DNS is redirected and is plain `-p tcp`, with no
port option, when it is not. -/
theorem buildMeshOutbound_loopback_rules (cfg : config.Config) (dnsServers : List String)
    (loopback : String) (ipv6 : Bool)
    (hen : cfg.Redirect.Outbound.Enabled = true) :
    (cfg.Redirect.DNS.Enabled = true →
      ((buildMeshOutbound cfg dnsServers loopback ipv6).rules.drop
          (spec.outboundExcludes cfg).length).take 3 =
        [spec.hairpin (if ipv6 then "::6/128" else "127.0.0.6/32") loopback,
         { predicates :=
             [Parameter.Protocol (ProtocolParameter.tcp [TcpUdpParameter.notDport 53]),
              Parameter.OutInterface loopback,
              Parameter.NotDestination (if ipv6 then "::1/128" else "127.0.0.1/32"),
              Parameter.Match (MatchParameter.Owner (OwnerParameter.Uid cfg.Owner.UID))],
           jump := JumpParameter.ToUserDefinedChain
             (cfg.Redirect.Inbound.RedirectChain.GetFullName cfg.Redirect.NamePrefix) },
         { predicates :=
             [Parameter.Protocol (ProtocolParameter.tcp [TcpUdpParameter.notDport 53]),
              Parameter.OutInterface loopback,
              Parameter.Match (MatchParameter.Owner (OwnerParameter.NotUid cfg.Owner.UID))],
           jump := JumpParameter.Return }]) ∧
    (cfg.Redirect.DNS.Enabled = false →
      ((buildMeshOutbound cfg dnsServers loopback ipv6).rules.drop
          (spec.outboundExcludes cfg).length).take 3 =
        [spec.hairpin (if ipv6 then "::6/128" else "127.0.0.6/32") loopback,
         { predicates :=
             [Parameter.Protocol (ProtocolParameter.tcp []),
              Parameter.OutInterface loopback,
              Parameter.NotDestination (if ipv6 then "::1/128" else "127.0.0.1/32"),
              Parameter.Match (MatchParameter.Owner (OwnerParameter.Uid cfg.Owner.UID))],
           jump := JumpParameter.ToUserDefinedChain
             (cfg.Redirect.Inbound.RedirectChain.GetFullName cfg.Redirect.NamePrefix) },
         { predicates :=
             [Parameter.Protocol (ProtocolParameter.tcp []),
              Parameter.OutInterface loopback,
              Parameter.Match (MatchParameter.Owner (OwnerParameter.NotUid cfg.Owner.UID))],
           jump := JumpParameter.Return }]) := by
  have hrules := buildMeshOutbound_rules cfg dnsServers loopback ipv6 hen
  constructor <;>
  · intro hdns
    rw [hrules, List.drop_left]
    simp [hdns, spec.loopbackToInbound, spec.loopbackReturn, spec.loopbackTcp,
      spec.passthroughCIDR, spec.localhostCIDR]

/-- C24, at the default configuration with exclude port 22, where DNS redirection is
off: the loopback rules carry plain `-p tcp`. -/
theorem buildMeshOutbound_loopback_rules_witness :
    ((buildMeshOutbound
        { config.defaultConfig with
          Redirect := { config.defaultConfig.Redirect with
            Outbound := { config.defaultConfig.Redirect.Outbound with ExcludePorts := [22] } } }
        [] "lo" false).rules.drop 1).take 3 =
      [spec.hairpin "127.0.0.6/32" "lo",
       spec.loopbackToInbound false "lo" "127.0.0.1/32" "5678" "MESH_INBOUND_REDIRECT",
       spec.loopbackReturn false "lo" "5678"] :=
  (buildMeshOutbound_loopback_rules
    { config.defaultConfig with
      Redirect := { config.defaultConfig.Redirect with
        Outbound := { config.defaultConfig.Redirect.Outbound with ExcludePorts := [22] } } }
    [] "lo" false rfl).2 rfl

/-- C25: `MergeConfigWithDefaults` never carries over the outbound IPv6 port: the
merged config has `Redirect.Outbound.PortIPv6 = 0`, while an inbound `PortIPv6` that
is not 0 is kept; so the outbound redirect chain built from a merged config redirects
to `Redirect.Outbound.Port` for IPv6 as for IPv4. -/
theorem MergeConfigWithDefaults_outbound_PortIPv6 (cfg : config.Config) (pfx : String) :
    (MergeConfigWithDefaults cfg).Redirect.Outbound.PortIPv6 = 0 ∧
    (cfg.Redirect.Inbound.PortIPv6 ≠ 0 →
      (MergeConfigWithDefaults cfg).Redirect.Inbound.PortIPv6 =
        cfg.Redirect.Inbound.PortIPv6) ∧
    ∀ ipv6 : Bool,
      buildMeshRedirect (MergeConfigWithDefaults cfg).Redirect.Outbound pfx ipv6 =
        { name := pfx ++ (MergeConfigWithDefaults cfg).Redirect.Outbound.RedirectChain.Name,
          rules := [spec.tcpRedirect (MergeConfigWithDefaults cfg).Redirect.Outbound.Port] } := by
  have h0 : (MergeConfigWithDefaults cfg).Redirect.Outbound.PortIPv6 = 0 := by
    rw [MergeConfigWithDefaults_eq cfg]
  refine ⟨h0, ?_, ?_⟩
  · intro hne
    rw [MergeConfigWithDefaults_eq cfg]
    simp [hne]
  · intro ipv6
    rw [buildMeshRedirect_eq]
    simp [spec.redirectPort, h0]

/-- C25, at an input whose inbound and outbound IPv6 ports are both 16000: the merged
outbound IPv6 port is 0 and the inbound one is kept. -/
theorem MergeConfigWithDefaults_outbound_PortIPv6_witness :
    (MergeConfigWithDefaults
      { spec.zeroConfig with
        Redirect := { spec.zeroConfig.Redirect with
          Inbound := { spec.zeroConfig.Redirect.Inbound with PortIPv6 := 16000 }
          Outbound := { spec.zeroConfig.Redirect.Outbound with
            PortIPv6 := 16000 } } }).Redirect.Inbound.PortIPv6 = 16000 :=
  (MergeConfigWithDefaults_outbound_PortIPv6
    { spec.zeroConfig with
      Redirect := { spec.zeroConfig.Redirect with
        Inbound := { spec.zeroConfig.Redirect.Inbound with PortIPv6 := 16000 }
        Outbound := { spec.zeroConfig.Redirect.Outbound with PortIPv6 := 16000 } } }
    "").2.1 (by decide)

/-- C26: with DNS redirection off, `CaptureAll`, the DNS port and the nameservers have
no effect: two configs with `Redirect.DNS.Enabled = false` that differ only in
`CaptureAll` and `Port` give the same table for any two nameserver lists and the same
loopback name and `ipv6` flag. -/
theorem buildNatTable_dns_disabled_ignores_dns_settings (cfg : config.Config)
    (captureAll : Bool) (port : Nat) (dnsServers dnsServers2 : List String)
    (loopback : String) (ipv6 : Bool)
    (hdns : cfg.Redirect.DNS.Enabled = false) :
    buildNatTable
        { cfg with Redirect := { cfg.Redirect with
            DNS := { cfg.Redirect.DNS with CaptureAll := captureAll, Port := port } } }
        dnsServers loopback ipv6 =
      buildNatTable cfg dnsServers2 loopback ipv6 := by
  rw [buildNatTable_eq, buildNatTable_eq]
  simp [spec.outputDNS, spec.outboundRules, spec.outboundDNS, spec.outboundExcludes,
    spec.outboundDispatch, hdns]

/-- C26, at the default configuration, where DNS redirection is off. -/
theorem buildNatTable_dns_disabled_ignores_dns_settings_witness :
    buildNatTable
        { config.defaultConfig with Redirect := { config.defaultConfig.Redirect with
            DNS := { config.defaultConfig.Redirect.DNS with
              CaptureAll := false, Port := 5353 } } }
        ["8.8.8.8"] "lo" false =
      buildNatTable config.defaultConfig ["1.1.1.1", "9.9.9.9"] "lo" false :=
  buildNatTable_dns_disabled_ignores_dns_settings config.defaultConfig false 5353
    ["8.8.8.8"] ["1.1.1.1", "9.9.9.9"] "lo" false rfl

end DNSSettings

/-! ## The DNS tests with capture-all set -/

section DNSCaptureAll

open parameters chain builder config

/-- C22, as stated, fails: for the test's configuration with DNS port 12345 and the
nameserver 8.8.8.8, merged with the defaults, `CaptureAll` is false and no rule of
`OUTPUT` redirects UDP port 53 without a destination-address predicate; and with
capture-all set and DNS port 0 the redirect goes to the default 15053, not to 0. -/
theorem addOutputRules_dns_test_no_capture_all :
    (MergeConfigWithDefaults (spec.dnsUdpTestConfig 12345 false)).Redirect.DNS.CaptureAll =
        false ∧
    (addOutputRules (MergeConfigWithDefaults (spec.dnsUdpTestConfig 12345 false)) ["8.8.8.8"]
        table.NewNat).output.rules =
      [spec.uidUdpReturn "5678", spec.dnsUdpTo "8.8.8.8" 12345,
        spec.tcpJump "MESH_OUTBOUND"] ∧
    (addOutputRules (MergeConfigWithDefaults (spec.dnsUdpTestConfig 12345 false)) ["8.8.8.8"]
        table.NewNat).output.rules.any
      (spec.redirectsAnyDestination ProtocolParameter.udp 12345) = false ∧
    (addOutputRules (MergeConfigWithDefaults (spec.dnsUdpCaptureAllConfig 0 false)) ["8.8.8.8"]
        table.NewNat).output.rules.any
      (spec.redirectsAnyDestination ProtocolParameter.udp 0) = false := by
  decide

/-- C22 (amended): with capture-all set in the input as well, that is for
`MergeConfigWithDefaults(Config{Redirect.DNS{Enabled: true, CaptureAll: true, Port: p}})`
with every other field zero, for every nameserver list and both values of `IPv6`,
`OUTPUT` is the sidecar exemption, then the rule
`-p udp --dport 53 -j REDIRECT --to-ports P`, which matches UDP port 53, has no
destination-address predicate and redirects to `P`, then the jump to `MESH_OUTBOUND`;
`P` is `p`, and the default 15053 when `p` is 0. -/
theorem addOutputRules_dns_capture_all_config (p : Nat) (ipv6 : Bool)
    (dnsServers : List String) :
    (addOutputRules (MergeConfigWithDefaults (spec.dnsUdpCaptureAllConfig p ipv6)) dnsServers
        table.NewNat).output.rules =
      [spec.uidUdpReturn "5678", spec.dnsUdpAll (if p = 0 then 15053 else p),
        spec.tcpJump "MESH_OUTBOUND"] ∧
    spec.redirectsAnyDestination ProtocolParameter.udp (if p = 0 then 15053 else p)
      (spec.dnsUdpAll (if p = 0 then 15053 else p)) = true ∧
    (p ≠ 0 →
      ∃ r ∈ (addOutputRules (MergeConfigWithDefaults (spec.dnsUdpCaptureAllConfig p ipv6))
          dnsServers table.NewNat).output.rules,
        spec.redirectsAnyDestination ProtocolParameter.udp p r = true) := by
  have hrules : (addOutputRules (MergeConfigWithDefaults (spec.dnsUdpCaptureAllConfig p ipv6))
      dnsServers table.NewNat).output.rules =
      [spec.uidUdpReturn "5678", spec.dnsUdpAll (if p = 0 then 15053 else p),
        spec.tcpJump "MESH_OUTBOUND"] := by
    rw [addOutputRules_output, MergeConfigWithDefaults_eq]
    by_cases hp : p = 0 <;>
      simp [spec.outputDNS, spec.dnsUdpCaptureAllConfig, spec.zeroConfig, table.NewNat,
        NewChain, config.Chain.GetFullName, hp]
  have hred : ∀ q : Nat,
      spec.redirectsAnyDestination ProtocolParameter.udp q (spec.dnsUdpAll q) = true := by
    intro q
    simp [spec.redirectsAnyDestination, spec.isDestinationPredicate, spec.dnsUdpAll]
  refine ⟨hrules, hred _, ?_⟩
  intro hp
  refine ⟨spec.dnsUdpAll p, ?_, hred p⟩
  rw [hrules]
  simp [hp]

/-- C22 (amended), at DNS port 12345 with the nameserver 8.8.8.8, for IPv6. -/
theorem addOutputRules_dns_capture_all_config_witness :
    (addOutputRules (MergeConfigWithDefaults (spec.dnsUdpCaptureAllConfig 12345 true))
        ["8.8.8.8"] table.NewNat).output.rules.any
      (spec.redirectsAnyDestination ProtocolParameter.udp 12345) = true := by
  obtain ⟨r, hr, hred⟩ :=
    (addOutputRules_dns_capture_all_config 12345 true ["8.8.8.8"]).2.2 (by decide)
  exact List.any_eq_true.2 ⟨r, hr, hred⟩

/-- C23, as stated, fails: for the test's configuration with DNS port 12345, outbound
port 23456 and the nameserver 8.8.8.8, merged with the defaults, outbound redirection
is off and `MESH_OUTBOUND` is the single rule `-p tcp -j RETURN`, which is no redirect
of TCP port 53. -/
theorem buildMeshOutbound_dns_test_no_redirect :
    (MergeConfigWithDefaults
        (spec.dnsTcpTestConfig 12345 23456 false)).Redirect.Outbound.Enabled = false ∧
    (buildMeshOutbound (MergeConfigWithDefaults (spec.dnsTcpTestConfig 12345 23456 false))
        ["8.8.8.8"] "lo" false).rules = [spec.tcpReturn] ∧
    (buildMeshOutbound (MergeConfigWithDefaults (spec.dnsTcpTestConfig 12345 23456 false))
        ["8.8.8.8"] "lo" false).rules.any
      (spec.redirectsAnyDestination ProtocolParameter.tcp 12345) = false := by
  decide

/-- C23 (amended): with capture-all and outbound redirection set in the input as
well, that is for `MergeConfigWithDefaults(Config{Redirect.DNS{Enabled: true,
CaptureAll: true, Port: dnsPort}, Redirect.Outbound{Enabled: true, Port: outboundPort}})`
with every other field zero, for every nameserver list, loopback name and both
families, `MESH_OUTBOUND` holds at its fifth place the rule
`-p tcp --dport 53 -j REDIRECT --to-ports P`, which matches TCP port 53, has no
destination-address predicate and redirects to `P`, and every rule that jumps to the
outbound redirect chain comes after it; `P` is `dnsPort`, and the default 15053 when
`dnsPort` is 0. -/
theorem buildMeshOutbound_dns_capture_all_config (dnsPort outboundPort : Nat) (ipv6 : Bool)
    (dnsServers : List String) (loopback : String) (family : Bool) :
    (buildMeshOutbound
        (MergeConfigWithDefaults (spec.dnsTcpCaptureAllConfig dnsPort outboundPort ipv6))
        dnsServers loopback family).rules[4]? =
      some (spec.dnsTcpAll (if dnsPort = 0 then 15053 else dnsPort)) ∧
    spec.redirectsAnyDestination ProtocolParameter.tcp (if dnsPort = 0 then 15053 else dnsPort)
      (spec.dnsTcpAll (if dnsPort = 0 then 15053 else dnsPort)) = true ∧
    (∀ (j : Nat) (r : Rule),
      (buildMeshOutbound
          (MergeConfigWithDefaults (spec.dnsTcpCaptureAllConfig dnsPort outboundPort ipv6))
          dnsServers loopback family).rules[j]? = some r →
      r.jump = JumpParameter.ToUserDefinedChain
        ((MergeConfigWithDefaults
          (spec.dnsTcpCaptureAllConfig dnsPort outboundPort ipv6)).Redirect.Outbound.RedirectChain.GetFullName
          (MergeConfigWithDefaults
            (spec.dnsTcpCaptureAllConfig dnsPort outboundPort ipv6)).Redirect.NamePrefix) →
      4 < j) ∧
    (dnsPort ≠ 0 →
      ∃ r ∈ (buildMeshOutbound
          (MergeConfigWithDefaults (spec.dnsTcpCaptureAllConfig dnsPort outboundPort ipv6))
          dnsServers loopback family).rules,
        spec.redirectsAnyDestination ProtocolParameter.tcp dnsPort r = true) := by
  have hrules : (buildMeshOutbound
      (MergeConfigWithDefaults (spec.dnsTcpCaptureAllConfig dnsPort outboundPort ipv6))
      dnsServers loopback family).rules =
      [spec.hairpin (spec.passthroughCIDR family) loopback,
       spec.loopbackToInbound true loopback (spec.localhostCIDR family) "5678"
         "MESH_INBOUND_REDIRECT",
       spec.loopbackReturn true loopback "5678",
       spec.uidReturn "5678",
       spec.dnsTcpAll (if dnsPort = 0 then 15053 else dnsPort),
       spec.localhostReturn (spec.localhostCIDR family),
       spec.bareJump "MESH_OUTBOUND_REDIRECT"] := by
    rw [buildMeshOutbound_chain, MergeConfigWithDefaults_eq]
    by_cases hp : dnsPort = 0 <;>
      simp [spec.outboundRules, spec.outboundExcludes, spec.outboundDNS,
        spec.outboundDispatch, spec.dnsTcpCaptureAllConfig, spec.zeroConfig,
        config.Chain.GetFullName, hp]
  have hOR : (MergeConfigWithDefaults
      (spec.dnsTcpCaptureAllConfig dnsPort outboundPort ipv6)).Redirect.Outbound.RedirectChain.GetFullName
      (MergeConfigWithDefaults
        (spec.dnsTcpCaptureAllConfig dnsPort outboundPort ipv6)).Redirect.NamePrefix =
      "MESH_OUTBOUND_REDIRECT" := by
    rw [MergeConfigWithDefaults_eq]
    rfl
  have hred : ∀ q : Nat,
      spec.redirectsAnyDestination ProtocolParameter.tcp q (spec.dnsTcpAll q) = true := by
    intro q
    simp [spec.redirectsAnyDestination, spec.isDestinationPredicate, spec.dnsTcpAll]
  refine ⟨?_, hred _, ?_, ?_⟩
  · rw [hrules]
    rfl
  · intro j r hj hjump
    rw [hOR] at hjump
    rw [hrules] at hj
    by_contra hlt
    have hj4 : j ≤ 4 := by omega
    interval_cases j <;>
      simp only [List.getElem?_cons_zero, List.getElem?_cons_succ, Option.some.injEq] at hj <;>
      subst hj <;>
      simp [spec.hairpin, spec.loopbackToInbound, spec.loopbackReturn, spec.uidReturn,
        spec.dnsTcpAll] at hjump
  · intro hp
    refine ⟨spec.dnsTcpAll dnsPort, ?_, hred dnsPort⟩
    rw [hrules]
    simp [hp]

/-- C23 (amended), at DNS port 12345 and outbound port 23456 with the nameserver
8.8.8.8, for IPv4. -/
theorem buildMeshOutbound_dns_capture_all_config_witness :
    (buildMeshOutbound (MergeConfigWithDefaults (spec.dnsTcpCaptureAllConfig 12345 23456 false))
        ["8.8.8.8"] "lo" false).rules.any
      (spec.redirectsAnyDestination ProtocolParameter.tcp 12345) = true := by
  obtain ⟨r, hr, hred⟩ :=
    (buildMeshOutbound_dns_capture_all_config 12345 23456 false ["8.8.8.8"] "lo"
      false).2.2.2 (by decide)
  exact List.any_eq_true.2 ⟨r, hr, hred⟩

end DNSCaptureAll

end KumaNet
